import Mathlib

/-!
# Titan PWM driver (`peripheral/pwm.c`)

A shallow embedding of the PWM driver of the Titan flight computer and of the
properties its specification states about it.

* `int32_t` values are mathematical integers; every arithmetic operation of the
  driver is wrapped into the `int32_t` range by `wrap_int32`, so that a theorem
  about the mathematical value also has to show that no wrap takes place.
* The driver talks to the hardware through `SET_FIELD`, `WRITE_FIELD` and the
  three GPIO calls `tal_enable_clock`, `tal_set_mode`, `tal_alternate_mode`.
  `ti_set_pwm_trace` yields the error code and the sequence of these operations
  in program order; `ti_set_pwm` runs that sequence on a hardware state.
-/

namespace Titan

/-! ## Machine integers -/

/-- Membership in the range of `int32_t`. -/
def in_int32 (x : Int) : Prop := -2147483648 ≤ x ∧ x ≤ 2147483647

instance (x : Int) : Decidable (in_int32 x) := by
  unfold in_int32; exact inferInstance

/-- Two's complement wrap of an integer into the range of `int32_t`. -/
def wrap_int32 (x : Int) : Int := (x + 2147483648) % 4294967296 - 2147483648

/-- The `int32_t` division `a / b` of C (truncation toward zero). -/
def div_int32 (a b : Int) : Int := wrap_int32 (Int.tdiv a b)

/-- The `int32_t` subtraction `a - b`. -/
def sub_int32 (a b : Int) : Int := wrap_int32 (a - b)

/-- The `int32_t` multiplication `a * b`. -/
def mul_int32 (a b : Int) : Int := wrap_int32 (a * b)

/-- Conversion of an `int32_t` to `uint32_t` (reduction modulo `2^32`). -/
def to_uint32 (v : Int) : Nat := (v % 4294967296).toNat

/-! ## Types of `pwm.h` -/

/-- The two error codes the driver writes to its error slot. -/
inductive ti_errc_t
  | TI_ERRC_NONE
  | TI_ERRC_INVALID_ARG
  deriving DecidableEq, Repr

/-- The configuration record `struct ti_pwm_config_t`; the field `inst` is the
field `instance` of the C struct. -/
structure ti_pwm_config_t where
  channel : Int
  inst : Int
  freq : Int
  duty : Int
  clock_freq : Int
  deriving DecidableEq, Repr

/-- All five fields of the record are `int32_t` values. -/
def ti_pwm_config_t.in_range (c : ti_pwm_config_t) : Prop :=
  in_int32 c.channel ∧ in_int32 c.inst ∧ in_int32 c.freq ∧ in_int32 c.duty ∧
    in_int32 c.clock_freq

instance (c : ti_pwm_config_t) : Decidable c.in_range := by
  unfold ti_pwm_config_t.in_range; exact inferInstance

/-! ## Macros of `pwm.c` -/

def MAX_DUTY_CYCLE : Int := 1000

def INSTANCE_COUNT : Int := 5

def UINT16_MAX : Int := 65535

/-! ## Private functions of `pwm.c` -/

/-- The function `check_pwm_config_validity` of `pwm.c`. -/
def check_pwm_config_validity (pwm_config : ti_pwm_config_t) : ti_errc_t :=
  if pwm_config.freq ≤ 0 then ti_errc_t.TI_ERRC_INVALID_ARG
  else if pwm_config.clock_freq ≤ 0 then ti_errc_t.TI_ERRC_INVALID_ARG
  else
    let freq_prescaler := div_int32 pwm_config.clock_freq pwm_config.freq
    if freq_prescaler = 0 ∨ freq_prescaler > UINT16_MAX then ti_errc_t.TI_ERRC_INVALID_ARG
    else if pwm_config.duty < 0 ∨ pwm_config.duty > MAX_DUTY_CYCLE then
      ti_errc_t.TI_ERRC_INVALID_ARG
    else if pwm_config.channel < 1 ∨ pwm_config.channel > 4 then
      ti_errc_t.TI_ERRC_INVALID_ARG
    else if pwm_config.inst < 2 ∨ pwm_config.inst > 5 then ti_errc_t.TI_ERRC_INVALID_ARG
    else ti_errc_t.TI_ERRC_NONE

/-- The inner `switch (channel)` of `pwm_set_pin_vals`: the pin is overwritten
by the case of the channel and left alone by `default`. -/
def pin_switch (pin p1 p2 p3 p4 channel : Int) : Int :=
  if channel = 1 then p1
  else if channel = 2 then p2
  else if channel = 3 then p3
  else if channel = 4 then p4
  else pin

set_option linter.unusedVariables false in
/-- The function `pwm_set_pin_vals` of `pwm.c`. The arguments `pin` and
`alt_mode` are the values the two slots hold on entry, the result is the pair
of values they hold on return. -/
def pwm_set_pin_vals (pin alt_mode inst channel : Int) : Int × Int :=
  let alt_mode : Int := if inst = 2 then 1 else 2
  if inst = 2 then (pin_switch pin 37 38 39 40 channel, alt_mode)
  else if inst = 3 then (pin_switch pin 45 46 49 50 channel, alt_mode)
  else if inst = 4 then (pin_switch pin 133 134 136 137 channel, alt_mode)
  else if inst = 5 then (pin_switch pin 37 38 39 40 channel, alt_mode)
  else (pin, alt_mode)

/-! ## Hardware operations -/

/-- The memory-mapped registers the driver names. `G_TIMx_ARR i` is the entry
`G_TIMx_ARR[i]` of the register table, and likewise for the other timer
registers. -/
inductive reg_id
  | RCC_APB1LENR
  | G_TIMx_ARR (i : Int)
  | G_TIMx_CCR1 (i : Int)
  | G_TIMx_CCR2 (i : Int)
  | G_TIMx_CCR3 (i : Int)
  | G_TIMx_CCR4 (i : Int)
  | G_TIMx_CCMR1_OUTPUT (i : Int)
  | G_TIMx_CCMR2_OUTPUT (i : Int)
  | G_TIMx_CCER (i : Int)
  | G_TIMx_CR1 (i : Int)
  deriving DecidableEq, Repr

/-- The register fields the driver names. `RCC_APB1LENR_TIMxEN i` is the entry
`RCC_APB1LENR_TIMxEN[i]` of the field table, and likewise for the fields
indexed by a channel. -/
inductive field_id
  | RCC_APB1LENR_TIMxEN (i : Int)
  | G_TIMx_ARR_ARR_32B
  | G_TIMx_ARR_ARR_L
  | G_TIMx_CCR1_CCR1_32B
  | G_TIMx_CCR1_CCR1_L
  | G_TIMx_CCR2_CCR2_32B
  | G_TIMx_CCR2_CCR2_L
  | G_TIMx_CCR3_CCR3_32B
  | G_TIMx_CCR3_CCR3_L
  | G_TIMx_CCR4_CCR4_32B
  | G_TIMx_CCR4_CCR4_L
  | G_TIMx_CCMR1_OUTPUT_OCxM (c : Int)
  | G_TIMx_CCMR1_OUTPUT_OCxPE (c : Int)
  | G_TIMx_CCMR2_OUTPUT_OCxM (c : Int)
  | G_TIMx_CCMR2_OUTPUT_OCxPE (c : Int)
  | G_TIMx_CCER_CCxE (c : Int)
  | G_TIMx_CR1_CEN
  | G_TIMx_CR1_ARPE
  deriving DecidableEq, Repr

/-- One hardware operation of the driver: a register macro applied to a
register and a field, or a call into the GPIO driver. -/
inductive hw_op
  | set_field (dst : reg_id) (field : field_id)
  | write_field (dst : reg_id) (field : field_id) (value : Int)
  | enable_clock (pin : Int)
  | set_mode (pin : Int) (mode : Int)
  | alternate_mode (pin : Int) (alt : Int)
  deriving DecidableEq, Repr

/-! ## Public function of `pwm.c`, as the sequence of its hardware operations -/

/-- The `switch (pwm_config.channel)` of `ti_set_pwm` that writes the compare
register: `some` of the write for channels 1 to 4, `none` for `default`. -/
def ccr_switch (inst channel : Int) (ccr_field_1 ccr_field_2 ccr_field_3 ccr_field_4 : field_id)
    (ccr_value : Int) : Option hw_op :=
  if channel = 1 then some (hw_op.write_field (reg_id.G_TIMx_CCR1 inst) ccr_field_1 ccr_value)
  else if channel = 2 then
    some (hw_op.write_field (reg_id.G_TIMx_CCR2 inst) ccr_field_2 ccr_value)
  else if channel = 3 then
    some (hw_op.write_field (reg_id.G_TIMx_CCR3 inst) ccr_field_3 ccr_value)
  else if channel = 4 then
    some (hw_op.write_field (reg_id.G_TIMx_CCR4 inst) ccr_field_4 ccr_value)
  else none

/-- The `if / else if` of `ti_set_pwm` that programs the output-compare mode. -/
def ccmr_ops (inst channel : Int) : List hw_op :=
  if channel = 1 ∨ channel = 2 then
    [hw_op.write_field (reg_id.G_TIMx_CCMR1_OUTPUT inst)
        (field_id.G_TIMx_CCMR1_OUTPUT_OCxM channel) 6,
      hw_op.set_field (reg_id.G_TIMx_CCMR1_OUTPUT inst)
        (field_id.G_TIMx_CCMR1_OUTPUT_OCxPE channel)]
  else if channel = 3 ∨ channel = 4 then
    [hw_op.write_field (reg_id.G_TIMx_CCMR2_OUTPUT inst)
        (field_id.G_TIMx_CCMR2_OUTPUT_OCxM channel) 6,
      hw_op.set_field (reg_id.G_TIMx_CCMR2_OUTPUT inst)
        (field_id.G_TIMx_CCMR2_OUTPUT_OCxPE channel)]
  else []

/-- The function `ti_set_pwm` of `pwm.c`: the value it leaves in `*errc` and
the hardware operations it performs, in program order. `pin0` and `alt0` are
the indeterminate values of the uninitialised locals `pin` and `alt_mode`. -/
def ti_set_pwm_trace (pin0 alt0 : Int) (pwm_config : ti_pwm_config_t) :
    ti_errc_t × List hw_op :=
  if pwm_config.inst > INSTANCE_COUNT then (ti_errc_t.TI_ERRC_INVALID_ARG, [])
  else
    let validation := check_pwm_config_validity pwm_config
    if validation ≠ ti_errc_t.TI_ERRC_NONE then (validation, [])
    else
      -- Enable PWM clock
      let t1 : List hw_op :=
        [hw_op.set_field reg_id.RCC_APB1LENR (field_id.RCC_APB1LENR_TIMxEN pwm_config.inst)]
      -- Set up GPIO pin
      let pv := pwm_set_pin_vals pin0 alt0 pwm_config.inst pwm_config.channel
      let pin := pv.1
      let alt_mode := pv.2
      let t2 : List hw_op := t1 ++
        [hw_op.enable_clock pin, hw_op.set_mode pin 2, hw_op.alternate_mode pin alt_mode]
      let is_32bit_timer : Bool := pwm_config.inst = 2 || pwm_config.inst = 5
      let arr_field :=
        if is_32bit_timer then field_id.G_TIMx_ARR_ARR_32B else field_id.G_TIMx_ARR_ARR_L
      -- Set frequency of timer
      let freq_prescaler := sub_int32 (div_int32 pwm_config.clock_freq pwm_config.freq) 1
      let t3 : List hw_op := t2 ++
        [hw_op.write_field (reg_id.G_TIMx_ARR pwm_config.inst) arr_field freq_prescaler]
      let ccr_field_1 :=
        if is_32bit_timer then field_id.G_TIMx_CCR1_CCR1_32B else field_id.G_TIMx_CCR1_CCR1_L
      let ccr_field_2 :=
        if is_32bit_timer then field_id.G_TIMx_CCR2_CCR2_32B else field_id.G_TIMx_CCR2_CCR2_L
      let ccr_field_3 :=
        if is_32bit_timer then field_id.G_TIMx_CCR3_CCR3_32B else field_id.G_TIMx_CCR3_CCR3_L
      let ccr_field_4 :=
        if is_32bit_timer then field_id.G_TIMx_CCR4_CCR4_32B else field_id.G_TIMx_CCR4_CCR4_L
      -- Set duty cycle
      let ccr_value := div_int32 (mul_int32 freq_prescaler pwm_config.duty) MAX_DUTY_CYCLE
      match ccr_switch pwm_config.inst pwm_config.channel ccr_field_1 ccr_field_2 ccr_field_3
          ccr_field_4 ccr_value with
      | none => (ti_errc_t.TI_ERRC_INVALID_ARG, t3)
      | some w =>
        let t4 : List hw_op := t3 ++ [w]
        -- Set to output compare
        let t5 : List hw_op := t4 ++ ccmr_ops pwm_config.inst pwm_config.channel
        -- Enable PWM channel output on the timer, enable the timer, enable PWM output
        let t6 : List hw_op := t5 ++
          [hw_op.set_field (reg_id.G_TIMx_CCER pwm_config.inst)
              (field_id.G_TIMx_CCER_CCxE pwm_config.channel),
            hw_op.set_field (reg_id.G_TIMx_CR1 pwm_config.inst) field_id.G_TIMx_CR1_CEN,
            hw_op.set_field (reg_id.G_TIMx_CR1 pwm_config.inst) field_id.G_TIMx_CR1_ARPE]
        (ti_errc_t.TI_ERRC_NONE, t6)

/-! ## Hardware state and the meaning of the operations -/

/-- A register field descriptor `field32_t`: a mask and the position of its
lowest bit. -/
structure field32_t where
  msk : Nat
  pos : Nat
  deriving DecidableEq, Repr

/-- Modelled from the spec: the macro `SET_FIELD` of `internal/mmio.h`, the
"set-bit" primitive of the spec: every bit of the field is set in the
register, the other bits are kept. -/
def SET_FIELD (reg : Nat) (field : field32_t) : Nat := reg ||| field.msk

/-- Modelled from the spec: the macro `WRITE_FIELD` of `internal/mmio.h`, the
"write-field-value" primitive of the spec: the bits of the field are replaced
by the value shifted to the position of the field, the other bits are kept. -/
def WRITE_FIELD (reg : Nat) (field : field32_t) (value : Int) : Nat :=
  (reg ^^^ (reg &&& field.msk)) ||| ((to_uint32 value <<< field.pos) &&& field.msk)

/-- Modelled from the spec: the configuration the GPIO driver keeps for one
pin: whether its clock is enabled, its mode, and its alternate-function
selector. -/
structure gpio_pin_t where
  clock : Bool
  mode : Int
  alt : Int
  deriving DecidableEq, Repr

/-- Modelled from the spec: `tal_enable_clock` of `peripheral/gpio.h`, "enable
clock for pin". -/
def tal_enable_clock (g : Int → gpio_pin_t) (pin : Int) : Int → gpio_pin_t :=
  fun p => if p = pin then { g p with clock := true } else g p

/-- Modelled from the spec: `tal_set_mode` of `peripheral/gpio.h`, "set pin
mode". -/
def tal_set_mode (g : Int → gpio_pin_t) (pin mode : Int) : Int → gpio_pin_t :=
  fun p => if p = pin then { g p with mode := mode } else g p

/-- Modelled from the spec: `tal_alternate_mode` of `peripheral/gpio.h`, "set
pin alternate function". -/
def tal_alternate_mode (g : Int → gpio_pin_t) (pin alt : Int) : Int → gpio_pin_t :=
  fun p => if p = pin then { g p with alt := alt } else g p

/-- The effect of one hardware operation on the registers, for the field
table `F` of `internal/mmio.h`: a register macro rewrites its destination
register, a GPIO call leaves the registers alone. -/
def reg_step (F : field_id → field32_t) (R : reg_id → Nat) : hw_op → reg_id → Nat
  | hw_op.set_field dst field => fun r => if r = dst then SET_FIELD (R r) (F field) else R r
  | hw_op.write_field dst field value =>
    fun r => if r = dst then WRITE_FIELD (R r) (F field) value else R r
  | hw_op.enable_clock _ => R
  | hw_op.set_mode _ _ => R
  | hw_op.alternate_mode _ _ => R

/-- The effect of one hardware operation on the GPIO configuration: a GPIO
call acts on its pin, a register macro leaves the GPIO configuration alone. -/
def gpio_step (g : Int → gpio_pin_t) : hw_op → Int → gpio_pin_t
  | hw_op.set_field _ _ => g
  | hw_op.write_field _ _ _ => g
  | hw_op.enable_clock pin => tal_enable_clock g pin
  | hw_op.set_mode pin mode => tal_set_mode g pin mode
  | hw_op.alternate_mode pin alt => tal_alternate_mode g pin alt

/-- The hardware state: the content of every register (the shared
clock-enable register and the registers of every timer instance) and the
configuration of every GPIO pin. -/
@[ext]
structure hw_state where
  regs : reg_id → Nat
  gpio : Int → gpio_pin_t

/-- The effect of one hardware operation on the hardware state. -/
def exec_op (F : field_id → field32_t) (s : hw_state) (op : hw_op) : hw_state :=
  { regs := reg_step F s.regs op, gpio := gpio_step s.gpio op }

/-- The effect of a sequence of hardware operations, first operation first. -/
def exec (F : field_id → field32_t) (s : hw_state) (ops : List hw_op) : hw_state :=
  ops.foldl (exec_op F) s

/-- The function `ti_set_pwm` of `pwm.c` on a hardware state: the value it
leaves in `*errc` and the hardware state it leaves behind. -/
def ti_set_pwm (F : field_id → field32_t) (pin0 alt0 : Int) (pwm_config : ti_pwm_config_t)
    (s : hw_state) : ti_errc_t × hw_state :=
  let r := ti_set_pwm_trace pin0 alt0 pwm_config
  (r.1, exec F s r.2)

/-! ## The properties of the specification, in its words -/

/-- The validation rules of the specification: `freq > 0`, `clock_freq > 0`,
`1 <= clock_freq / freq <= 65535` with truncating division, `0 <= duty <= 1000`,
`1 <= channel <= 4` and `2 <= instance <= 5`. -/
def spec_valid (c : ti_pwm_config_t) : Prop :=
  c.freq > 0 ∧ c.clock_freq > 0 ∧
    (1 ≤ Int.tdiv c.clock_freq c.freq ∧ Int.tdiv c.clock_freq c.freq ≤ 65535) ∧
    (0 ≤ c.duty ∧ c.duty ≤ 1000) ∧ (1 ≤ c.channel ∧ c.channel ≤ 4) ∧
    (2 ≤ c.inst ∧ c.inst ≤ 5)

instance (c : ti_pwm_config_t) : Decidable (spec_valid c) := by
  unfold spec_valid; exact inferInstance

/-- A record violates at least one validation rule, rule by rule as the
specification lists the violations. -/
def spec_violation (c : ti_pwm_config_t) : Prop :=
  c.freq ≤ 0 ∨ c.clock_freq ≤ 0 ∨ Int.tdiv c.clock_freq c.freq = 0 ∨
    Int.tdiv c.clock_freq c.freq > 65535 ∨ (c.duty < 0 ∨ c.duty > 1000) ∨
    (c.channel < 1 ∨ c.channel > 4) ∨ (c.inst < 2 ∨ c.inst > 5)

instance (c : ti_pwm_config_t) : Decidable (spec_violation c) := by
  unfold spec_violation; exact inferInstance

/-- The values written to a register by the `WRITE_FIELD` operations of a
sequence, each with the field it was written through, in program order. -/
def writes_to (r : reg_id) (ops : List hw_op) : List (field_id × Int) :=
  ops.filterMap fun op =>
    match op with
    | hw_op.write_field dst field value => if dst = r then some (field, value) else none
    | _ => none

/-- A sample record: channel 1 of timer 2, 1 kHz at 50 % from a 2 MHz clock. -/
def sample_config : ti_pwm_config_t :=
  { channel := 1, inst := 2, freq := 1000, duty := 500, clock_freq := 2000000 }

/-- A second sample record: channel 3 of timer 4, a 16-bit timer. -/
def sample_config_16 : ti_pwm_config_t :=
  { channel := 3, inst := 4, freq := 50, duty := 75, clock_freq := 1000000 }

/-- A third sample record: the sample record moved to timer 5, which resolves
to the pin of timer 2. -/
def sample_config_tim5 : ti_pwm_config_t :=
  { channel := 1, inst := 5, freq := 1000, duty := 500, clock_freq := 2000000 }

/-- A sample field table in the layout of the STM32H7 general-purpose timers,
used to run the driver on concrete states. -/
def sample_fields : field_id → field32_t
  | field_id.RCC_APB1LENR_TIMxEN i => { msk := 1 <<< (i - 2).toNat, pos := (i - 2).toNat }
  | field_id.G_TIMx_ARR_ARR_32B => { msk := 0xFFFFFFFF, pos := 0 }
  | field_id.G_TIMx_ARR_ARR_L => { msk := 0xFFFF, pos := 0 }
  | field_id.G_TIMx_CCR1_CCR1_32B => { msk := 0xFFFFFFFF, pos := 0 }
  | field_id.G_TIMx_CCR1_CCR1_L => { msk := 0xFFFF, pos := 0 }
  | field_id.G_TIMx_CCR2_CCR2_32B => { msk := 0xFFFFFFFF, pos := 0 }
  | field_id.G_TIMx_CCR2_CCR2_L => { msk := 0xFFFF, pos := 0 }
  | field_id.G_TIMx_CCR3_CCR3_32B => { msk := 0xFFFFFFFF, pos := 0 }
  | field_id.G_TIMx_CCR3_CCR3_L => { msk := 0xFFFF, pos := 0 }
  | field_id.G_TIMx_CCR4_CCR4_32B => { msk := 0xFFFFFFFF, pos := 0 }
  | field_id.G_TIMx_CCR4_CCR4_L => { msk := 0xFFFF, pos := 0 }
  | field_id.G_TIMx_CCMR1_OUTPUT_OCxM c =>
    if c = 1 then { msk := 0x70, pos := 4 } else { msk := 0x7000, pos := 12 }
  | field_id.G_TIMx_CCMR1_OUTPUT_OCxPE c =>
    if c = 1 then { msk := 0x8, pos := 3 } else { msk := 0x800, pos := 11 }
  | field_id.G_TIMx_CCMR2_OUTPUT_OCxM c =>
    if c = 3 then { msk := 0x70, pos := 4 } else { msk := 0x7000, pos := 12 }
  | field_id.G_TIMx_CCMR2_OUTPUT_OCxPE c =>
    if c = 3 then { msk := 0x8, pos := 3 } else { msk := 0x800, pos := 11 }
  | field_id.G_TIMx_CCER_CCxE c =>
    { msk := 1 <<< (4 * (c - 1)).toNat, pos := (4 * (c - 1)).toNat }
  | field_id.G_TIMx_CR1_CEN => { msk := 0x1, pos := 0 }
  | field_id.G_TIMx_CR1_ARPE => { msk := 0x80, pos := 7 }

/-- The hardware state after reset: every register zero, every pin with its
clock off, mode 0 and alternate function 0. -/
def reset_state : hw_state :=
  { regs := fun _ => 0, gpio := fun _ => { clock := false, mode := 0, alt := 0 } }

/-- The reload value of the specification, `clock_freq / freq - 1` with
truncating division, over the mathematical integers. -/
def reload_value (c : ti_pwm_config_t) : Int := Int.tdiv c.clock_freq c.freq - 1

/-- The compare value of the specification,
`floor((clock_freq / freq - 1) * duty / 1000)`, over the mathematical integers
(`Int.fdiv` rounds toward minus infinity). -/
def compare_value (c : ti_pwm_config_t) : Int := Int.fdiv (reload_value c * c.duty) 1000

/-- The field variant of the auto-reload register: 32-bit or 16-bit (low
half). -/
def arr_field (wide : Bool) : field_id :=
  if wide then field_id.G_TIMx_ARR_ARR_32B else field_id.G_TIMx_ARR_ARR_L

/-- The capture/compare register selected by a channel: CCR1 for channel 1,
CCR2 for 2, CCR3 for 3, CCR4 for 4. -/
def ccr_reg (inst channel : Int) : reg_id :=
  if channel = 1 then reg_id.G_TIMx_CCR1 inst
  else if channel = 2 then reg_id.G_TIMx_CCR2 inst
  else if channel = 3 then reg_id.G_TIMx_CCR3 inst
  else reg_id.G_TIMx_CCR4 inst

/-- The field variant of the capture/compare register of a channel: 32-bit or
16-bit (low half). -/
def ccr_field (wide : Bool) (channel : Int) : field_id :=
  if channel = 1 then
    (if wide then field_id.G_TIMx_CCR1_CCR1_32B else field_id.G_TIMx_CCR1_CCR1_L)
  else if channel = 2 then
    (if wide then field_id.G_TIMx_CCR2_CCR2_32B else field_id.G_TIMx_CCR2_CCR2_L)
  else if channel = 3 then
    (if wide then field_id.G_TIMx_CCR3_CCR3_32B else field_id.G_TIMx_CCR3_CCR3_L)
  else (if wide then field_id.G_TIMx_CCR4_CCR4_32B else field_id.G_TIMx_CCR4_CCR4_L)

/-- The compare-mode register of a channel: CCMR1 for channels 1 and 2, CCMR2
for channels 3 and 4. -/
def ccmr_reg (inst channel : Int) : reg_id :=
  if channel = 1 ∨ channel = 2 then reg_id.G_TIMx_CCMR1_OUTPUT inst
  else reg_id.G_TIMx_CCMR2_OUTPUT inst

/-- The mode bits of a channel in its compare-mode register. -/
def ocxm_field (channel : Int) : field_id :=
  if channel = 1 ∨ channel = 2 then field_id.G_TIMx_CCMR1_OUTPUT_OCxM channel
  else field_id.G_TIMx_CCMR2_OUTPUT_OCxM channel

/-- The preload-enable bit of a channel in its compare-mode register. -/
def ocxpe_field (channel : Int) : field_id :=
  if channel = 1 ∨ channel = 2 then field_id.G_TIMx_CCMR1_OUTPUT_OCxPE channel
  else field_id.G_TIMx_CCMR2_OUTPUT_OCxPE channel

/-- The step sequence of the specification for a validated record, the
resolved pin and its alternate-function selector: timer clock enable; pin
clock, pin mode 2, pin alternate function; reload value to ARR; compare value
to the CCR of the channel; mode bits `0b0110` and preload enable in the CCMR of
the channel; output enable in CCER; CEN in CR1; ARPE in CR1. -/
def spec_steps (pin alt_mode : Int) (c : ti_pwm_config_t) : List hw_op :=
  let wide : Bool := c.inst = 2 || c.inst = 5
  [hw_op.set_field reg_id.RCC_APB1LENR (field_id.RCC_APB1LENR_TIMxEN c.inst),
   hw_op.enable_clock pin,
   hw_op.set_mode pin 2,
   hw_op.alternate_mode pin alt_mode,
   hw_op.write_field (reg_id.G_TIMx_ARR c.inst) (arr_field wide) (reload_value c),
   hw_op.write_field (ccr_reg c.inst c.channel) (ccr_field wide c.channel) (compare_value c),
   hw_op.write_field (ccmr_reg c.inst c.channel) (ocxm_field c.channel) 6,
   hw_op.set_field (ccmr_reg c.inst c.channel) (ocxpe_field c.channel),
   hw_op.set_field (reg_id.G_TIMx_CCER c.inst) (field_id.G_TIMx_CCER_CCxE c.channel),
   hw_op.set_field (reg_id.G_TIMx_CR1 c.inst) field_id.G_TIMx_CR1_CEN,
   hw_op.set_field (reg_id.G_TIMx_CR1 c.inst) field_id.G_TIMx_CR1_ARPE]

/-! ## Shapes of state transformers, used in the proofs -/

/-- A transformer of the registers acts bit by bit: every bit of the result is
the old bit, masked by `keep`, or-ed with `force`. -/
def reg_affine (f : (reg_id → Nat) → reg_id → Nat) : Prop :=
  ∃ keep force : reg_id → Nat → Bool, ∀ R r k,
    (f R r).testBit k = (((R r).testBit k && keep r k) || force r k)

/-- A transformer of the GPIO configuration acts pin by pin: the clock is
or-ed with a constant, the mode and the selector are kept or overwritten with
a constant. -/
def gpio_affine (f : (Int → gpio_pin_t) → Int → gpio_pin_t) : Prop :=
  ∃ (ck : Int → Bool) (md al : Int → Option Int), ∀ g p,
    f g p = { clock := (g p).clock || ck p, mode := (md p).getD (g p).mode,
              alt := (al p).getD (g p).alt }

/-- The timer instance a register belongs to; the clock-enable register is
shared and belongs to none. -/
def reg_id.timer : reg_id → Option Int
  | reg_id.RCC_APB1LENR => none
  | reg_id.G_TIMx_ARR i => some i
  | reg_id.G_TIMx_CCR1 i => some i
  | reg_id.G_TIMx_CCR2 i => some i
  | reg_id.G_TIMx_CCR3 i => some i
  | reg_id.G_TIMx_CCR4 i => some i
  | reg_id.G_TIMx_CCMR1_OUTPUT i => some i
  | reg_id.G_TIMx_CCMR2_OUTPUT i => some i
  | reg_id.G_TIMx_CCER i => some i
  | reg_id.G_TIMx_CR1 i => some i

/-- The register footprint of an operation lies within timer instance `i`: it
sets bits of the shared clock-enable register, or it accesses a register of
timer instance `i`, or it is a GPIO call. -/
def reg_local (i : Int) : hw_op → Prop
  | hw_op.set_field dst _ => dst = reg_id.RCC_APB1LENR ∨ dst.timer = some i
  | hw_op.write_field dst _ _ => dst.timer = some i
  | hw_op.enable_clock _ => True
  | hw_op.set_mode _ _ => True
  | hw_op.alternate_mode _ _ => True

/-! ## Further definitions of the specification -/

/-- The entry point of the specification with its first check (`instance > 5`)
removed: the same function as `ti_set_pwm_trace`, starting at the call of the
validator. -/
def ti_set_pwm_trace_unguarded (pin0 alt0 : Int) (pwm_config : ti_pwm_config_t) :
    ti_errc_t × List hw_op :=
  let validation := check_pwm_config_validity pwm_config
  if validation ≠ ti_errc_t.TI_ERRC_NONE then (validation, [])
  else
    let t1 : List hw_op :=
      [hw_op.set_field reg_id.RCC_APB1LENR (field_id.RCC_APB1LENR_TIMxEN pwm_config.inst)]
    let pv := pwm_set_pin_vals pin0 alt0 pwm_config.inst pwm_config.channel
    let pin := pv.1
    let alt_mode := pv.2
    let t2 : List hw_op := t1 ++
      [hw_op.enable_clock pin, hw_op.set_mode pin 2, hw_op.alternate_mode pin alt_mode]
    let is_32bit_timer : Bool := pwm_config.inst = 2 || pwm_config.inst = 5
    let arr_field :=
      if is_32bit_timer then field_id.G_TIMx_ARR_ARR_32B else field_id.G_TIMx_ARR_ARR_L
    let freq_prescaler := sub_int32 (div_int32 pwm_config.clock_freq pwm_config.freq) 1
    let t3 : List hw_op := t2 ++
      [hw_op.write_field (reg_id.G_TIMx_ARR pwm_config.inst) arr_field freq_prescaler]
    let ccr_field_1 :=
      if is_32bit_timer then field_id.G_TIMx_CCR1_CCR1_32B else field_id.G_TIMx_CCR1_CCR1_L
    let ccr_field_2 :=
      if is_32bit_timer then field_id.G_TIMx_CCR2_CCR2_32B else field_id.G_TIMx_CCR2_CCR2_L
    let ccr_field_3 :=
      if is_32bit_timer then field_id.G_TIMx_CCR3_CCR3_32B else field_id.G_TIMx_CCR3_CCR3_L
    let ccr_field_4 :=
      if is_32bit_timer then field_id.G_TIMx_CCR4_CCR4_32B else field_id.G_TIMx_CCR4_CCR4_L
    let ccr_value := div_int32 (mul_int32 freq_prescaler pwm_config.duty) MAX_DUTY_CYCLE
    match ccr_switch pwm_config.inst pwm_config.channel ccr_field_1 ccr_field_2 ccr_field_3
        ccr_field_4 ccr_value with
    | none => (ti_errc_t.TI_ERRC_INVALID_ARG, t3)
    | some w =>
      let t4 : List hw_op := t3 ++ [w]
      let t5 : List hw_op := t4 ++ ccmr_ops pwm_config.inst pwm_config.channel
      let t6 : List hw_op := t5 ++
        [hw_op.set_field (reg_id.G_TIMx_CCER pwm_config.inst)
            (field_id.G_TIMx_CCER_CCxE pwm_config.channel),
          hw_op.set_field (reg_id.G_TIMx_CR1 pwm_config.inst) field_id.G_TIMx_CR1_CEN,
          hw_op.set_field (reg_id.G_TIMx_CR1 pwm_config.inst) field_id.G_TIMx_CR1_ARPE]
      (ti_errc_t.TI_ERRC_NONE, t6)

/-- The entry point without its first check, on a hardware state. -/
def ti_set_pwm_unguarded (F : field_id → field32_t) (pin0 alt0 : Int)
    (pwm_config : ti_pwm_config_t) (s : hw_state) : ti_errc_t × hw_state :=
  let r := ti_set_pwm_trace_unguarded pin0 alt0 pwm_config
  (r.1, exec F s r.2)

/-- Modelled from the spec: the 16-bit field variant of `internal/mmio.h`
(`G_TIMx_ARR_ARR_L`, `G_TIMx_CCR1_CCR1_L`, ...), a 16-bit field packed in the
low half of a 32-bit register. -/
def field16_low : field32_t := { msk := 0xFFFF, pos := 0 }

/-- Modelled from the spec: the macro `READ_FIELD` of `internal/mmio.h`, the
field-read primitive of the spec: the bits of the field, shifted down to
position zero. -/
def READ_FIELD (reg : Nat) (field : field32_t) : Nat := (reg &&& field.msk) >>> field.pos

/-- The prescaler check of the validator fails: the condition of the third
`if` of `check_pwm_config_validity`. -/
def prescaler_check_fails (freq clock_freq : Int) : Prop :=
  div_int32 clock_freq freq = 0 ∨ div_int32 clock_freq freq > UINT16_MAX

instance (freq clock_freq : Int) : Decidable (prescaler_check_fails freq clock_freq) := by
  unfold prescaler_check_fails; exact inferInstance

/-- The pair lies in the validated domain of the pin resolver: instance in
2..5 and channel in 1..4. -/
def in_domain (inst channel : Int) : Prop :=
  (2 ≤ inst ∧ inst ≤ 5) ∧ (1 ≤ channel ∧ channel ≤ 4)

instance (inst channel : Int) : Decidable (in_domain inst channel) := by
  unfold in_domain; exact inferInstance

/-- The second sample record with a higher duty. -/
def sample_config_16_high : ti_pwm_config_t :=
  { channel := 3, inst := 4, freq := 50, duty := 900, clock_freq := 1000000 }

/-- A sample record with the smallest quotient: `clock_freq / freq = 1`. -/
def sample_config_unit : ti_pwm_config_t :=
  { channel := 2, inst := 3, freq := 1000, duty := 700, clock_freq := 1999 }

/-- A sample record with full duty. -/
def sample_config_full : ti_pwm_config_t :=
  { channel := 4, inst := 5, freq := 50, duty := 1000, clock_freq := 1000000 }

/-- A sample record that the first check of the entry point rejects. -/
def sample_config_tim6 : ti_pwm_config_t :=
  { channel := 1, inst := 6, freq := 1000, duty := 500, clock_freq := 2000000 }

/-! ## Arithmetic of the validated domain -/

theorem wrap_int32_eq {x : Int} (h : in_int32 x) : wrap_int32 x = x := by
  unfold in_int32 at h
  unfold wrap_int32
  omega

theorem tdiv_bounds {a b : Int} (ha : 0 ≤ a) (hb : 0 < b) :
    0 ≤ Int.tdiv a b ∧ Int.tdiv a b ≤ a := by
  rw [Int.tdiv_eq_ediv ha (le_of_lt hb)]
  exact ⟨Int.ediv_nonneg ha (le_of_lt hb), Int.ediv_le_self b ha⟩

theorem div_int32_eq {a b : Int} (ha : 0 ≤ a) (hb : 0 < b) (hr : in_int32 a) :
    div_int32 a b = Int.tdiv a b := by
  have h := tdiv_bounds ha hb
  unfold div_int32
  apply wrap_int32_eq
  unfold in_int32 at hr ⊢
  omega

/-- The validator accepts a record of `int32_t` fields exactly when the
validation rules of the specification hold. -/
theorem check_none_iff (c : ti_pwm_config_t) (hr : c.in_range) :
    check_pwm_config_validity c = ti_errc_t.TI_ERRC_NONE ↔ spec_valid c := by
  obtain ⟨-, -, -, -, hcf⟩ := hr
  unfold check_pwm_config_validity spec_valid
  by_cases h1 : c.freq ≤ 0
  · simp [h1]
  by_cases h2 : c.clock_freq ≤ 0
  · simp [h1, h2]
  have hd := div_int32_eq (le_of_not_le h2) (lt_of_not_le h1) hcf
  have hb := tdiv_bounds (le_of_not_le h2) (lt_of_not_le h1)
  simp only [h1, h2, if_false, hd, UINT16_MAX, MAX_DUTY_CYCLE]
  split_ifs <;> simp <;> omega

/-- The arithmetic of an accepted record: the quotient, the reload value and
the product with the duty stay inside `int32_t`, and the wrapped operations of
the driver yield the mathematical values. -/
theorem accepted_arith (c : ti_pwm_config_t) (hr : c.in_range) (hv : spec_valid c) :
    (0 ≤ reload_value c ∧ reload_value c ≤ 65534) ∧
    (0 ≤ reload_value c * c.duty ∧ reload_value c * c.duty ≤ 65534000) ∧
    (0 ≤ compare_value c ∧ compare_value c ≤ reload_value c) ∧
    sub_int32 (div_int32 c.clock_freq c.freq) 1 = reload_value c ∧
    mul_int32 (reload_value c) c.duty = reload_value c * c.duty ∧
    div_int32 (reload_value c * c.duty) MAX_DUTY_CYCLE = compare_value c := by
  obtain ⟨-, -, -, -, hcf⟩ := hr
  obtain ⟨hf, hc, ⟨hq1, hq2⟩, ⟨hd1, hd2⟩, -, -⟩ := hv
  have hdiv := div_int32_eq (le_of_lt hc) hf hcf
  have hrl : 0 ≤ reload_value c ∧ reload_value c ≤ 65534 := by
    unfold reload_value; omega
  have hp1 : 0 ≤ reload_value c * c.duty := Int.mul_nonneg hrl.1 hd1
  have hp2 : reload_value c * c.duty ≤ 65534 * 1000 :=
    Int.mul_le_mul hrl.2 hd2 hd1 (by omega)
  have hp3 : reload_value c * c.duty ≤ reload_value c * 1000 :=
    Int.mul_le_mul_of_nonneg_left hd2 hrl.1
  have hcv : compare_value c = (reload_value c * c.duty) / 1000 := by
    unfold compare_value
    exact Int.fdiv_eq_ediv _ (by omega)
  have hct : Int.tdiv (reload_value c * c.duty) 1000 = (reload_value c * c.duty) / 1000 :=
    Int.tdiv_eq_ediv hp1 (by omega)
  refine ⟨hrl, ⟨hp1, by omega⟩, ⟨by omega, by omega⟩, ?_, ?_, ?_⟩
  · rw [hdiv]
    unfold sub_int32
    apply wrap_int32_eq
    unfold in_int32
    omega
  · unfold mul_int32
    apply wrap_int32_eq
    unfold in_int32
    omega
  · unfold div_int32 MAX_DUTY_CYCLE
    rw [hct, hcv]
    apply wrap_int32_eq
    unfold in_int32
    omega

/-- The hardware operations of an accepted record are the step sequence of
the specification, and the error slot holds `TI_ERRC_NONE`. -/
theorem trace_accepted (pin0 alt0 : Int) (c : ti_pwm_config_t) (hr : c.in_range)
    (hv : check_pwm_config_validity c = ti_errc_t.TI_ERRC_NONE) :
    ti_set_pwm_trace pin0 alt0 c =
      (ti_errc_t.TI_ERRC_NONE,
        spec_steps (pwm_set_pin_vals pin0 alt0 c.inst c.channel).1
          (pwm_set_pin_vals pin0 alt0 c.inst c.channel).2 c) := by
  have hs := (check_none_iff c hr).1 hv
  obtain ⟨_, _, _, h4, h5, h6⟩ := accepted_arith c hr hs
  obtain ⟨-, -, -, -, ⟨hc1, hc2⟩, ⟨hi1, hi2⟩⟩ := hs
  have hi : ¬ c.inst > INSTANCE_COUNT := by unfold INSTANCE_COUNT; omega
  have hch : c.channel = 1 ∨ c.channel = 2 ∨ c.channel = 3 ∨ c.channel = 4 := by omega
  unfold ti_set_pwm_trace
  simp only [hi, if_false, hv, ne_eq, not_true_eq_false, h4, h5, h6]
  rcases hch with h | h | h | h <;>
    simp [h, ccr_switch, ccmr_ops, spec_steps, ccr_reg, ccr_field, ccmr_reg, ocxm_field,
      ocxpe_field, arr_field]

/-- A record the validator does not accept leaves `TI_ERRC_INVALID_ARG` in the
error slot and performs no hardware operation. -/
theorem trace_rejected (pin0 alt0 : Int) (c : ti_pwm_config_t)
    (hv : check_pwm_config_validity c ≠ ti_errc_t.TI_ERRC_NONE) :
    ti_set_pwm_trace pin0 alt0 c = (ti_errc_t.TI_ERRC_INVALID_ARG, []) := by
  unfold ti_set_pwm_trace
  by_cases hi : c.inst > INSTANCE_COUNT
  · simp [hi]
  · have h : check_pwm_config_validity c = ti_errc_t.TI_ERRC_INVALID_ARG := by
      cases hc : check_pwm_config_validity c
      · exact absurd hc hv
      · rfl
    simp [hi, h]

/-- A violation of a validation rule is the negation of the validation rules. -/
theorem spec_violation_iff (c : ti_pwm_config_t) : spec_violation c ↔ ¬ spec_valid c := by
  unfold spec_violation spec_valid
  by_cases hf : c.freq ≤ 0
  · constructor
    · intro _ h; omega
    · intro _; exact Or.inl hf
  by_cases hc : c.clock_freq ≤ 0
  · constructor
    · intro _ h; omega
    · intro _; exact Or.inr (Or.inl hc)
  have hb := tdiv_bounds (le_of_not_le hc) (lt_of_not_le hf)
  omega

/-- On the validated domain the resolved pin and selector do not depend on
the values the two slots held before the call. -/
theorem pin_vals_indep (pin alt pin' alt' inst channel : Int)
    (hi : 2 ≤ inst ∧ inst ≤ 5) (hc : 1 ≤ channel ∧ channel ≤ 4) :
    pwm_set_pin_vals pin alt inst channel = pwm_set_pin_vals pin' alt' inst channel := by
  have hi' : inst = 2 ∨ inst = 3 ∨ inst = 4 ∨ inst = 5 := by omega
  have hc' : channel = 1 ∨ channel = 2 ∨ channel = 3 ∨ channel = 4 := by omega
  rcases hi' with h | h | h | h <;> rcases hc' with h' | h' | h' | h' <;>
    simp [pwm_set_pin_vals, pin_switch, h, h']

/-! ## Running a sequence of operations -/

theorem exec_regs (F : field_id → field32_t) (ops : List hw_op) (s : hw_state) :
    (exec F s ops).regs = ops.foldl (reg_step F) s.regs := by
  induction ops generalizing s with
  | nil => rfl
  | cons op ops ih => exact ih (exec_op F s op)

theorem exec_gpio (F : field_id → field32_t) (ops : List hw_op) (s : hw_state) :
    (exec F s ops).gpio = ops.foldl gpio_step s.gpio := by
  induction ops generalizing s with
  | nil => rfl
  | cons op ops ih => exact ih (exec_op F s op)

theorem reg_affine_step (F : field_id → field32_t) (op : hw_op) :
    reg_affine (fun R => reg_step F R op) := by
  cases op with
  | set_field dst field =>
    refine ⟨fun _ _ => true, fun r k => decide (r = dst) && (F field).msk.testBit k, ?_⟩
    intro R r k
    by_cases h : r = dst <;> simp [reg_step, SET_FIELD, h]
  | write_field dst field value =>
    refine ⟨fun r k => !(decide (r = dst) && (F field).msk.testBit k),
      fun r k => decide (r = dst) &&
        ((to_uint32 value <<< (F field).pos).testBit k && (F field).msk.testBit k), ?_⟩
    intro R r k
    by_cases h : r = dst
    · simp only [reg_step, WRITE_FIELD, h, if_true, Nat.testBit_or, Nat.testBit_xor,
        Nat.testBit_and, decide_True, Bool.true_and]
      generalize (R dst).testBit k = x
      generalize (F field).msk.testBit k = m
      generalize (to_uint32 value <<< (F field).pos).testBit k = v
      cases x <;> cases m <;> cases v <;> rfl
    · simp [reg_step, h]
  | enable_clock pin => exact ⟨fun _ _ => true, fun _ _ => false, by intro R r k; simp [reg_step]⟩
  | set_mode pin mode => exact ⟨fun _ _ => true, fun _ _ => false, by intro R r k; simp [reg_step]⟩
  | alternate_mode pin alt =>
    exact ⟨fun _ _ => true, fun _ _ => false, by intro R r k; simp [reg_step]⟩

theorem reg_affine_comp {f g : (reg_id → Nat) → reg_id → Nat} (hf : reg_affine f)
    (hg : reg_affine g) : reg_affine (fun R => g (f R)) := by
  obtain ⟨k1, f1, h1⟩ := hf
  obtain ⟨k2, f2, h2⟩ := hg
  refine ⟨fun r k => k1 r k && k2 r k, fun r k => (f1 r k && k2 r k) || f2 r k, ?_⟩
  intro R r k
  dsimp only
  rw [h2, h1]
  generalize (R r).testBit k = x
  generalize k1 r k = a1
  generalize k2 r k = a2
  generalize f1 r k = b1
  generalize f2 r k = b2
  cases x <;> cases a1 <;> cases a2 <;> cases b1 <;> cases b2 <;> rfl

theorem reg_affine_foldl (F : field_id → field32_t) (ops : List hw_op) :
    reg_affine (fun R => ops.foldl (reg_step F) R) := by
  induction ops with
  | nil => exact ⟨fun _ _ => true, fun _ _ => false, by intro R r k; simp⟩
  | cons op ops ih => exact reg_affine_comp (reg_affine_step F op) ih

theorem reg_affine_idem {f : (reg_id → Nat) → reg_id → Nat} (hf : reg_affine f)
    (R : reg_id → Nat) : f (f R) = f R := by
  obtain ⟨k1, f1, h1⟩ := hf
  funext r
  apply Nat.eq_of_testBit_eq
  intro k
  rw [h1 (f R), h1 R]
  generalize (R r).testBit k = x
  generalize k1 r k = a1
  generalize f1 r k = b1
  cases x <;> cases a1 <;> cases b1 <;> rfl

theorem gpio_affine_step (op : hw_op) : gpio_affine (fun g => gpio_step g op) := by
  cases op with
  | set_field dst field =>
    exact ⟨fun _ => false, fun _ => none, fun _ => none, by intro g p; simp [gpio_step]⟩
  | write_field dst field value =>
    exact ⟨fun _ => false, fun _ => none, fun _ => none, by intro g p; simp [gpio_step]⟩
  | enable_clock pin =>
    refine ⟨fun p => decide (p = pin), fun _ => none, fun _ => none, ?_⟩
    intro g p
    by_cases h : p = pin <;> simp [gpio_step, tal_enable_clock, h]
  | set_mode pin mode =>
    refine ⟨fun _ => false, fun p => if p = pin then some mode else none, fun _ => none, ?_⟩
    intro g p
    by_cases h : p = pin <;> simp [gpio_step, tal_set_mode, h]
  | alternate_mode pin alt =>
    refine ⟨fun _ => false, fun _ => none, fun p => if p = pin then some alt else none, ?_⟩
    intro g p
    by_cases h : p = pin <;> simp [gpio_step, tal_alternate_mode, h]

theorem gpio_affine_comp {f g : (Int → gpio_pin_t) → Int → gpio_pin_t} (hf : gpio_affine f)
    (hg : gpio_affine g) : gpio_affine (fun x => g (f x)) := by
  obtain ⟨c1, m1, a1, h1⟩ := hf
  obtain ⟨c2, m2, a2, h2⟩ := hg
  refine ⟨fun p => c1 p || c2 p, fun p => (m2 p).orElse (fun _ => m1 p),
    fun p => (a2 p).orElse (fun _ => a1 p), ?_⟩
  intro x p
  dsimp only
  rw [h2, h1]
  cases hm : m2 p <;> cases ha : a2 p <;> simp [Bool.or_assoc]

theorem gpio_affine_foldl (ops : List hw_op) :
    gpio_affine (fun g => ops.foldl gpio_step g) := by
  induction ops with
  | nil => exact ⟨fun _ => false, fun _ => none, fun _ => none, by intro g p; simp⟩
  | cons op ops ih => exact gpio_affine_comp (gpio_affine_step op) ih

theorem gpio_affine_idem {f : (Int → gpio_pin_t) → Int → gpio_pin_t} (hf : gpio_affine f)
    (g : Int → gpio_pin_t) : f (f g) = f g := by
  obtain ⟨c1, m1, a1, h1⟩ := hf
  funext p
  rw [h1 (f g), h1 g]
  cases hm : m1 p <;> cases ha : a1 p <;> simp

/-- Running any sequence of hardware operations a second time changes
nothing: every operation sets bits, overwrites a field with a constant or
overwrites a pin setting with a constant. -/
theorem exec_idem (F : field_id → field32_t) (ops : List hw_op) (s : hw_state) :
    exec F (exec F s ops) ops = exec F s ops := by
  apply hw_state.ext
  · rw [exec_regs, exec_regs]
    exact reg_affine_idem (reg_affine_foldl F ops) s.regs
  · rw [exec_gpio, exec_gpio]
    exact gpio_affine_idem (gpio_affine_foldl ops) s.gpio

/-! ## Operations of distinct timer instances -/

theorem SET_FIELD_comm (x : Nat) (f g : field32_t) :
    SET_FIELD (SET_FIELD x f) g = SET_FIELD (SET_FIELD x g) f := by
  unfold SET_FIELD
  rw [Nat.lor_assoc, Nat.lor_assoc, Nat.lor_comm f.msk g.msk]

/-- Two operations whose register footprints lie within two distinct
timer instances act on the registers in either order with the same result. -/
theorem reg_step_comm (F : field_id → field32_t) (R : reg_id → Nat) (a b : hw_op) (i j : Int)
    (hij : i ≠ j) (ha : reg_local i a) (hb : reg_local j b) :
    reg_step F (reg_step F R a) b = reg_step F (reg_step F R b) a := by
  have hne : ∀ d : reg_id, d.timer = some i → d.timer = some j → False := by
    intro d h1 h2
    rw [h1] at h2
    exact hij (Option.some.inj h2)
  have hrcc : ∀ d : reg_id, d = reg_id.RCC_APB1LENR → ∀ k : Int, d.timer = some k → False := by
    intro d h k hk
    rw [h] at hk
    simp [reg_id.timer] at hk
  cases a <;> cases b <;> try rfl
  case set_field.set_field d1 f1 d2 f2 =>
    funext r
    simp only [reg_step]
    by_cases hd : d1 = d2
    · subst hd
      by_cases h1 : r = d1
      · simp only [h1, if_true]
        exact SET_FIELD_comm _ _ _
      · simp only [h1, if_false]
    · by_cases h1 : r = d1 <;> by_cases h2 : r = d2 <;> simp [h1, h2, hd, Ne.symm hd]
  case set_field.write_field d1 f1 d2 f2 v2 =>
    have hd : d1 ≠ d2 := by
      intro h
      simp only [reg_local] at ha hb
      rcases ha with ha | ha
      · exact hrcc d2 (h ▸ ha) j hb
      · exact hne d2 (h ▸ ha) hb
    funext r
    simp only [reg_step]
    by_cases h1 : r = d1 <;> by_cases h2 : r = d2 <;> simp [h1, h2, hd, Ne.symm hd]
  case write_field.set_field d1 f1 v1 d2 f2 =>
    have hd : d1 ≠ d2 := by
      intro h
      simp only [reg_local] at ha hb
      rcases hb with hb | hb
      · exact hrcc d1 (h ▸ hb) i ha
      · exact hne d1 ha (h ▸ hb)
    funext r
    simp only [reg_step]
    by_cases h1 : r = d1 <;> by_cases h2 : r = d2 <;> simp [h1, h2, hd, Ne.symm hd]
  case write_field.write_field d1 f1 v1 d2 f2 v2 =>
    have hd : d1 ≠ d2 := by
      intro h
      simp only [reg_local] at ha hb
      exact hne d1 ha (h ▸ hb)
    funext r
    simp only [reg_step]
    by_cases h1 : r = d1 <;> by_cases h2 : r = d2 <;> simp [h1, h2, hd, Ne.symm hd]

theorem reg_foldl_comm_one (F : field_id → field32_t) (a : hw_op) (i j : Int) (hij : i ≠ j)
    (ha : reg_local i a) (l : List hw_op) (hl : ∀ b ∈ l, reg_local j b) (R : reg_id → Nat) :
    l.foldl (reg_step F) (reg_step F R a) = reg_step F (l.foldl (reg_step F) R) a := by
  induction l generalizing R with
  | nil => rfl
  | cons b l ih =>
    simp only [List.foldl_cons]
    rw [reg_step_comm F R a b i j hij ha (hl b (List.mem_cons_self b l))]
    exact ih (fun x hx => hl x (List.mem_cons_of_mem b hx)) (reg_step F R b)

/-- Two sequences of operations whose register footprints lie within distinct
timer instances act on the registers in either order with the same result. -/
theorem reg_foldl_comm (F : field_id → field32_t) (i j : Int) (hij : i ≠ j)
    (l1 l2 : List hw_op) (h1 : ∀ a ∈ l1, reg_local i a) (h2 : ∀ b ∈ l2, reg_local j b)
    (R : reg_id → Nat) :
    l2.foldl (reg_step F) (l1.foldl (reg_step F) R) =
      l1.foldl (reg_step F) (l2.foldl (reg_step F) R) := by
  induction l1 generalizing R with
  | nil => rfl
  | cons a l1 ih =>
    simp only [List.foldl_cons]
    rw [ih (fun x hx => h1 x (List.mem_cons_of_mem a hx)) (reg_step F R a),
      reg_foldl_comm_one F a i j hij (h1 a (List.mem_cons_self a l1)) l2 h2 R]

/-- The register footprint of the step sequence of a record lies within the
timer instance of the record. -/
theorem spec_steps_local (pin alt_mode : Int) (c : ti_pwm_config_t) :
    ∀ op ∈ spec_steps pin alt_mode c, reg_local c.inst op := by
  intro op hop
  simp only [spec_steps, List.mem_cons, List.mem_singleton, List.not_mem_nil, or_false] at hop
  rcases hop with h | h | h | h | h | h | h | h | h | h | h <;> subst h <;>
    simp only [reg_local, reg_id.timer, ccr_reg, ccmr_reg, true_or, or_true] <;>
    split_ifs <;> simp [reg_id.timer]

/-- The GPIO configuration after the step sequence: the resolved pin has its
clock on, mode 2 and the resolved selector, every other pin is as before. -/
theorem spec_steps_gpio (pin alt_mode : Int) (c : ti_pwm_config_t) (g : Int → gpio_pin_t) :
    (spec_steps pin alt_mode c).foldl gpio_step g =
      fun p => if p = pin then { clock := true, mode := 2, alt := alt_mode } else g p := by
  funext p
  by_cases h : p = pin <;>
    simp [spec_steps, gpio_step, tal_enable_clock, tal_set_mode, tal_alternate_mode, h]

/-- Two pairs of the validated domain with distinct instances resolve to the
same pin only when the channels agree and the instances are 2 and 5. -/
theorem pin_shared (pin alt_mode pin' alt_mode' i1 c1 i2 c2 : Int)
    (hi1 : 2 ≤ i1 ∧ i1 ≤ 5) (hc1 : 1 ≤ c1 ∧ c1 ≤ 4) (hi2 : 2 ≤ i2 ∧ i2 ≤ 5)
    (hc2 : 1 ≤ c2 ∧ c2 ≤ 4) (hne : i1 ≠ i2)
    (hp : (pwm_set_pin_vals pin alt_mode i1 c1).1 = (pwm_set_pin_vals pin' alt_mode' i2 c2).1) :
    c1 = c2 ∧ ((i1 = 2 ∧ i2 = 5) ∨ (i1 = 5 ∧ i2 = 2)) := by
  have hi1' : i1 = 2 ∨ i1 = 3 ∨ i1 = 4 ∨ i1 = 5 := by omega
  have hc1' : c1 = 1 ∨ c1 = 2 ∨ c1 = 3 ∨ c1 = 4 := by omega
  have hi2' : i2 = 2 ∨ i2 = 3 ∨ i2 = 4 ∨ i2 = 5 := by omega
  have hc2' : c2 = 1 ∨ c2 = 2 ∨ c2 = 3 ∨ c2 = 4 := by omega
  rcases hi1' with h1 | h1 | h1 | h1 <;> rcases hc1' with h2 | h2 | h2 | h2 <;>
    rcases hi2' with h3 | h3 | h3 | h3 <;> rcases hc2' with h4 | h4 | h4 | h4 <;>
    subst h1 h2 h3 h4 <;> simp [pwm_set_pin_vals, pin_switch] at hp hne ⊢

/-! ## Error reporting -/

/-- C1: for every record of `int32_t` fields, `ti_set_pwm` leaves
`TI_ERRC_NONE` or `TI_ERRC_INVALID_ARG` in the error slot; it leaves
`TI_ERRC_NONE` exactly when all validation rules hold (`freq > 0`,
`clock_freq > 0`, `1 <= clock_freq / freq <= 65535`, `0 <= duty <= 1000`,
`1 <= channel <= 4`, `2 <= instance <= 5`) and `TI_ERRC_INVALID_ARG` in every
other case. -/
theorem C1_error_slot (F : field_id → field32_t) (pin0 alt0 : Int) (c : ti_pwm_config_t)
    (s : hw_state) (hr : c.in_range) :
    ((ti_set_pwm F pin0 alt0 c s).1 = ti_errc_t.TI_ERRC_NONE ∨
      (ti_set_pwm F pin0 alt0 c s).1 = ti_errc_t.TI_ERRC_INVALID_ARG) ∧
    ((ti_set_pwm F pin0 alt0 c s).1 = ti_errc_t.TI_ERRC_NONE ↔ spec_valid c) ∧
    ((ti_set_pwm F pin0 alt0 c s).1 = ti_errc_t.TI_ERRC_INVALID_ARG ↔ ¬ spec_valid c) := by
  unfold ti_set_pwm
  by_cases hv : check_pwm_config_validity c = ti_errc_t.TI_ERRC_NONE
  · have hs := (check_none_iff c hr).1 hv
    simp [trace_accepted pin0 alt0 c hr hv, hs]
  · have hs : ¬ spec_valid c := fun h => hv ((check_none_iff c hr).2 h)
    simp [trace_rejected pin0 alt0 c hv, hs]

theorem C1_error_slot_witness :
    sample_config.in_range ∧
    (((ti_set_pwm sample_fields 0 0 sample_config reset_state).1 = ti_errc_t.TI_ERRC_NONE ∨
      (ti_set_pwm sample_fields 0 0 sample_config reset_state).1 =
        ti_errc_t.TI_ERRC_INVALID_ARG) ∧
    ((ti_set_pwm sample_fields 0 0 sample_config reset_state).1 = ti_errc_t.TI_ERRC_NONE ↔
      spec_valid sample_config) ∧
    ((ti_set_pwm sample_fields 0 0 sample_config reset_state).1 =
      ti_errc_t.TI_ERRC_INVALID_ARG ↔ ¬ spec_valid sample_config)) :=
  ⟨by decide, C1_error_slot sample_fields 0 0 sample_config reset_state (by decide)⟩

/-- C2: for every record of `int32_t` fields that violates at least one
validation rule and every initial hardware state, `ti_set_pwm` performs no
hardware operation (no register write, no GPIO call) and leaves the hardware
state exactly as it was; only the error slot is written, with
`TI_ERRC_INVALID_ARG`. -/
theorem C2_rejected_no_effect (F : field_id → field32_t) (pin0 alt0 : Int)
    (c : ti_pwm_config_t) (s : hw_state) (hr : c.in_range) (hviol : spec_violation c) :
    (ti_set_pwm_trace pin0 alt0 c).2 = [] ∧
    (ti_set_pwm F pin0 alt0 c s).2 = s ∧
    (ti_set_pwm F pin0 alt0 c s).1 = ti_errc_t.TI_ERRC_INVALID_ARG := by
  have hs : ¬ spec_valid c := (spec_violation_iff c).1 hviol
  have hv : check_pwm_config_validity c ≠ ti_errc_t.TI_ERRC_NONE :=
    fun h => hs ((check_none_iff c hr).1 h)
  unfold ti_set_pwm
  simp [trace_rejected pin0 alt0 c hv, exec]

theorem C2_rejected_no_effect_witness :
    (ti_pwm_config_t.mk 1 2 1000 500 999).in_range ∧
    spec_violation (ti_pwm_config_t.mk 1 2 1000 500 999) ∧
    ((ti_set_pwm_trace 0 0 (ti_pwm_config_t.mk 1 2 1000 500 999)).2 = [] ∧
    (ti_set_pwm sample_fields 0 0 (ti_pwm_config_t.mk 1 2 1000 500 999) reset_state).2 =
      reset_state ∧
    (ti_set_pwm sample_fields 0 0 (ti_pwm_config_t.mk 1 2 1000 500 999) reset_state).1 =
      ti_errc_t.TI_ERRC_INVALID_ARG) :=
  ⟨by decide, by decide,
    C2_rejected_no_effect sample_fields 0 0 (ti_pwm_config_t.mk 1 2 1000 500 999) reset_state
      (by decide) (by decide)⟩

/-! ## Pin resolver -/

/-- C3: for every value the pin slot holds on entry, `pwm_set_pin_vals` sets
the pin to the table value of each of the sixteen pairs of the validated
domain: (2,1)->37, (2,2)->38, (2,3)->39, (2,4)->40, (3,1)->45, (3,2)->46,
(3,3)->49, (3,4)->50, (4,1)->133, (4,2)->134, (4,3)->136, (4,4)->137,
(5,1)->37, (5,2)->38, (5,3)->39, (5,4)->40. -/
theorem C3_pin_table (pin alt_mode : Int) :
    (pwm_set_pin_vals pin alt_mode 2 1).1 = 37 ∧ (pwm_set_pin_vals pin alt_mode 2 2).1 = 38 ∧
    (pwm_set_pin_vals pin alt_mode 2 3).1 = 39 ∧ (pwm_set_pin_vals pin alt_mode 2 4).1 = 40 ∧
    (pwm_set_pin_vals pin alt_mode 3 1).1 = 45 ∧ (pwm_set_pin_vals pin alt_mode 3 2).1 = 46 ∧
    (pwm_set_pin_vals pin alt_mode 3 3).1 = 49 ∧ (pwm_set_pin_vals pin alt_mode 3 4).1 = 50 ∧
    (pwm_set_pin_vals pin alt_mode 4 1).1 = 133 ∧
    (pwm_set_pin_vals pin alt_mode 4 2).1 = 134 ∧
    (pwm_set_pin_vals pin alt_mode 4 3).1 = 136 ∧
    (pwm_set_pin_vals pin alt_mode 4 4).1 = 137 ∧
    (pwm_set_pin_vals pin alt_mode 5 1).1 = 37 ∧ (pwm_set_pin_vals pin alt_mode 5 2).1 = 38 ∧
    (pwm_set_pin_vals pin alt_mode 5 3).1 = 39 ∧ (pwm_set_pin_vals pin alt_mode 5 4).1 = 40 := by
  simp [pwm_set_pin_vals, pin_switch]

/-- C4: for every instance and channel, valid or not, and every value the two
slots hold on entry, the alternate-function selector `pwm_set_pin_vals`
produces is 1 if the instance is 2 and 2 otherwise. -/
theorem C4_alt_mode (pin alt_mode inst channel : Int) :
    (pwm_set_pin_vals pin alt_mode inst channel).2 = if inst = 2 then 1 else 2 := by
  unfold pwm_set_pin_vals
  split_ifs <;> simp_all

/-! ## Values written by the register programmer -/

/-- C5: for every accepted record, the one value `ti_set_pwm` writes to the
auto-reload register of the record's timer instance is `clock_freq / freq - 1`
with truncating division; the quotient and the difference lie in the range of
`int32_t`, so the `int32_t` computation of the driver does not wrap. -/
theorem C5_reload_value (F : field_id → field32_t) (pin0 alt0 : Int) (c : ti_pwm_config_t)
    (s : hw_state) (hr : c.in_range)
    (hv : check_pwm_config_validity c = ti_errc_t.TI_ERRC_NONE) :
    (writes_to (reg_id.G_TIMx_ARR c.inst) (ti_set_pwm_trace pin0 alt0 c).2).map Prod.snd =
      [Int.tdiv c.clock_freq c.freq - 1] ∧
    in_int32 (Int.tdiv c.clock_freq c.freq) ∧
    in_int32 (Int.tdiv c.clock_freq c.freq - 1) ∧
    sub_int32 (div_int32 c.clock_freq c.freq) 1 = Int.tdiv c.clock_freq c.freq - 1 ∧
    (ti_set_pwm F pin0 alt0 c s).2.regs (reg_id.G_TIMx_ARR c.inst) =
      WRITE_FIELD (s.regs (reg_id.G_TIMx_ARR c.inst))
        (F (arr_field (c.inst = 2 || c.inst = 5))) (Int.tdiv c.clock_freq c.freq - 1) := by
  have hs := (check_none_iff c hr).1 hv
  obtain ⟨h1, -, -, h4, -, -⟩ := accepted_arith c hr hs
  obtain ⟨-, -, -, -, ⟨hc1, hc2⟩, -⟩ := hs
  have hch : c.channel = 1 ∨ c.channel = 2 ∨ c.channel = 3 ∨ c.channel = 4 := by omega
  unfold ti_set_pwm
  rw [trace_accepted pin0 alt0 c hr hv]
  refine ⟨?_, ?_, ?_, h4, ?_⟩
  · rcases hch with h | h | h | h <;>
      simp [h, spec_steps, writes_to, ccr_reg, ccmr_reg, reload_value]
  · unfold reload_value at h1; unfold in_int32; omega
  · unfold reload_value at h1; unfold in_int32; omega
  · simp only [exec_regs]
    rcases hch with h | h | h | h <;>
      simp [h, spec_steps, reg_step, ccr_reg, ccmr_reg, reload_value]

theorem C5_reload_value_witness :
    sample_config.in_range ∧
    check_pwm_config_validity sample_config = ti_errc_t.TI_ERRC_NONE ∧
    ((writes_to (reg_id.G_TIMx_ARR sample_config.inst)
        (ti_set_pwm_trace 0 0 sample_config).2).map Prod.snd =
      [Int.tdiv sample_config.clock_freq sample_config.freq - 1] ∧
    in_int32 (Int.tdiv sample_config.clock_freq sample_config.freq) ∧
    in_int32 (Int.tdiv sample_config.clock_freq sample_config.freq - 1) ∧
    sub_int32 (div_int32 sample_config.clock_freq sample_config.freq) 1 =
      Int.tdiv sample_config.clock_freq sample_config.freq - 1 ∧
    (ti_set_pwm sample_fields 0 0 sample_config reset_state).2.regs
        (reg_id.G_TIMx_ARR sample_config.inst) =
      WRITE_FIELD (reset_state.regs (reg_id.G_TIMx_ARR sample_config.inst))
        (sample_fields (arr_field (sample_config.inst = 2 || sample_config.inst = 5)))
        (Int.tdiv sample_config.clock_freq sample_config.freq - 1)) :=
  ⟨by decide, by decide,
    C5_reload_value sample_fields 0 0 sample_config reset_state (by decide) (by decide)⟩

/-- C6: for every accepted record, the one value `ti_set_pwm` writes to the
capture/compare register selected by the channel (CCR1 for channel 1, CCR2 for
2, CCR3 for 3, CCR4 for 4) is `floor((clock_freq / freq - 1) * duty / 1000)`
over the mathematical integers; the product `(clock_freq / freq - 1) * duty`
lies in the range of `int32_t`, so the `int32_t` product of the driver does not
wrap. -/
theorem C6_compare_value (F : field_id → field32_t) (pin0 alt0 : Int) (c : ti_pwm_config_t)
    (s : hw_state) (hr : c.in_range)
    (hv : check_pwm_config_validity c = ti_errc_t.TI_ERRC_NONE) :
    (writes_to (ccr_reg c.inst c.channel) (ti_set_pwm_trace pin0 alt0 c).2).map Prod.snd =
      [Int.fdiv ((Int.tdiv c.clock_freq c.freq - 1) * c.duty) 1000] ∧
    in_int32 ((Int.tdiv c.clock_freq c.freq - 1) * c.duty) ∧
    mul_int32 (sub_int32 (div_int32 c.clock_freq c.freq) 1) c.duty =
      (Int.tdiv c.clock_freq c.freq - 1) * c.duty ∧
    (ti_set_pwm F pin0 alt0 c s).2.regs (ccr_reg c.inst c.channel) =
      WRITE_FIELD (s.regs (ccr_reg c.inst c.channel))
        (F (ccr_field (c.inst = 2 || c.inst = 5) c.channel))
        (Int.fdiv ((Int.tdiv c.clock_freq c.freq - 1) * c.duty) 1000) := by
  have hs := (check_none_iff c hr).1 hv
  obtain ⟨-, h2, -, h4, h5, -⟩ := accepted_arith c hr hs
  obtain ⟨-, -, -, -, ⟨hc1, hc2⟩, -⟩ := hs
  have hch : c.channel = 1 ∨ c.channel = 2 ∨ c.channel = 3 ∨ c.channel = 4 := by omega
  unfold ti_set_pwm
  rw [trace_accepted pin0 alt0 c hr hv]
  refine ⟨?_, ?_, ?_, ?_⟩
  · rcases hch with h | h | h | h <;>
      simp [h, spec_steps, writes_to, ccr_reg, ccmr_reg, compare_value, reload_value]
  · unfold reload_value at h2; unfold in_int32; omega
  · rw [h4, h5]; rfl
  · simp only [exec_regs]
    rcases hch with h | h | h | h <;>
      simp [h, spec_steps, reg_step, ccr_reg, ccmr_reg, compare_value, reload_value]

theorem C6_compare_value_witness :
    sample_config.in_range ∧
    check_pwm_config_validity sample_config = ti_errc_t.TI_ERRC_NONE ∧
    ((writes_to (ccr_reg sample_config.inst sample_config.channel)
        (ti_set_pwm_trace 0 0 sample_config).2).map Prod.snd =
      [Int.fdiv ((Int.tdiv sample_config.clock_freq sample_config.freq - 1) *
        sample_config.duty) 1000] ∧
    in_int32 ((Int.tdiv sample_config.clock_freq sample_config.freq - 1) *
      sample_config.duty) ∧
    mul_int32 (sub_int32 (div_int32 sample_config.clock_freq sample_config.freq) 1)
        sample_config.duty =
      (Int.tdiv sample_config.clock_freq sample_config.freq - 1) * sample_config.duty ∧
    (ti_set_pwm sample_fields 0 0 sample_config reset_state).2.regs
        (ccr_reg sample_config.inst sample_config.channel) =
      WRITE_FIELD (reset_state.regs (ccr_reg sample_config.inst sample_config.channel))
        (sample_fields
          (ccr_field (sample_config.inst = 2 || sample_config.inst = 5) sample_config.channel))
        (Int.fdiv ((Int.tdiv sample_config.clock_freq sample_config.freq - 1) *
          sample_config.duty) 1000)) :=
  ⟨by decide, by decide,
    C6_compare_value sample_fields 0 0 sample_config reset_state (by decide) (by decide)⟩

/-- C7: for every accepted record, the write to the auto-reload register and
the write to the capture/compare register of the channel both go through the
32-bit field variant when the instance is 2 or 5 and both through the 16-bit
(low half) field variant when the instance is 3 or 4, for every channel; the
two variants never differ within one call. -/
theorem C7_field_width (pin0 alt0 : Int) (c : ti_pwm_config_t) (hr : c.in_range)
    (hv : check_pwm_config_validity c = ti_errc_t.TI_ERRC_NONE) :
    (c.inst = 2 ∨ c.inst = 5 →
      (writes_to (reg_id.G_TIMx_ARR c.inst) (ti_set_pwm_trace pin0 alt0 c).2).map Prod.fst =
        [field_id.G_TIMx_ARR_ARR_32B] ∧
      (writes_to (ccr_reg c.inst c.channel) (ti_set_pwm_trace pin0 alt0 c).2).map Prod.fst =
        [ccr_field true c.channel]) ∧
    (c.inst = 3 ∨ c.inst = 4 →
      (writes_to (reg_id.G_TIMx_ARR c.inst) (ti_set_pwm_trace pin0 alt0 c).2).map Prod.fst =
        [field_id.G_TIMx_ARR_ARR_L] ∧
      (writes_to (ccr_reg c.inst c.channel) (ti_set_pwm_trace pin0 alt0 c).2).map Prod.fst =
        [ccr_field false c.channel]) := by
  have hs := (check_none_iff c hr).1 hv
  obtain ⟨-, -, -, -, ⟨hc1, hc2⟩, -⟩ := hs
  have hch : c.channel = 1 ∨ c.channel = 2 ∨ c.channel = 3 ∨ c.channel = 4 := by omega
  rw [trace_accepted pin0 alt0 c hr hv]
  constructor
  · intro hi
    rcases hi with hi | hi <;> rcases hch with h | h | h | h <;>
      simp [h, hi, spec_steps, writes_to, ccr_reg, ccmr_reg, arr_field, ccr_field]
  · intro hi
    rcases hi with hi | hi <;> rcases hch with h | h | h | h <;>
      simp [h, hi, spec_steps, writes_to, ccr_reg, ccmr_reg, arr_field, ccr_field]

theorem C7_field_width_witness :
    sample_config_16.in_range ∧
    check_pwm_config_validity sample_config_16 = ti_errc_t.TI_ERRC_NONE ∧
    ((sample_config_16.inst = 2 ∨ sample_config_16.inst = 5 →
      (writes_to (reg_id.G_TIMx_ARR sample_config_16.inst)
        (ti_set_pwm_trace 0 0 sample_config_16).2).map Prod.fst =
        [field_id.G_TIMx_ARR_ARR_32B] ∧
      (writes_to (ccr_reg sample_config_16.inst sample_config_16.channel)
        (ti_set_pwm_trace 0 0 sample_config_16).2).map Prod.fst =
        [ccr_field true sample_config_16.channel]) ∧
    (sample_config_16.inst = 3 ∨ sample_config_16.inst = 4 →
      (writes_to (reg_id.G_TIMx_ARR sample_config_16.inst)
        (ti_set_pwm_trace 0 0 sample_config_16).2).map Prod.fst =
        [field_id.G_TIMx_ARR_ARR_L] ∧
      (writes_to (ccr_reg sample_config_16.inst sample_config_16.channel)
        (ti_set_pwm_trace 0 0 sample_config_16).2).map Prod.fst =
        [ccr_field false sample_config_16.channel])) :=
  ⟨by decide, by decide, C7_field_width 0 0 sample_config_16 (by decide) (by decide)⟩

/-! ## Idempotence -/

/-- C8: for every accepted record and every initial hardware state, the
hardware state (registers of every timer, clock-enable register, GPIO pin
configuration) after two calls of `ti_set_pwm` with the record equals the
hardware state after one call, and both calls report `TI_ERRC_NONE`. -/
theorem C8_idempotent (F : field_id → field32_t) (pin0 alt0 pin1 alt1 : Int)
    (c : ti_pwm_config_t) (s : hw_state) (hr : c.in_range)
    (hv : check_pwm_config_validity c = ti_errc_t.TI_ERRC_NONE) :
    (ti_set_pwm F pin1 alt1 c (ti_set_pwm F pin0 alt0 c s).2).2 =
      (ti_set_pwm F pin0 alt0 c s).2 ∧
    (ti_set_pwm F pin0 alt0 c s).1 = ti_errc_t.TI_ERRC_NONE ∧
    (ti_set_pwm F pin1 alt1 c (ti_set_pwm F pin0 alt0 c s).2).1 = ti_errc_t.TI_ERRC_NONE := by
  have hs := (check_none_iff c hr).1 hv
  obtain ⟨-, -, -, -, hc, hi⟩ := hs
  unfold ti_set_pwm
  simp only [trace_accepted pin0 alt0 c hr hv, trace_accepted pin1 alt1 c hr hv,
    pin_vals_indep pin1 alt1 pin0 alt0 c.inst c.channel hi hc, and_self, and_true]
  exact exec_idem F _ s

theorem C8_idempotent_witness :
    sample_config_16.in_range ∧
    check_pwm_config_validity sample_config_16 = ti_errc_t.TI_ERRC_NONE ∧
    ((ti_set_pwm sample_fields 7 9 sample_config_16
        (ti_set_pwm sample_fields 0 0 sample_config_16 reset_state).2).2 =
      (ti_set_pwm sample_fields 0 0 sample_config_16 reset_state).2 ∧
    (ti_set_pwm sample_fields 0 0 sample_config_16 reset_state).1 = ti_errc_t.TI_ERRC_NONE ∧
    (ti_set_pwm sample_fields 7 9 sample_config_16
        (ti_set_pwm sample_fields 0 0 sample_config_16 reset_state).2).1 =
      ti_errc_t.TI_ERRC_NONE) :=
  ⟨by decide, by decide,
    C8_idempotent sample_fields 0 0 7 9 sample_config_16 reset_state (by decide) (by decide)⟩

/-! ## Step order -/

/-- C9: for every accepted record the hardware operations of `ti_set_pwm` are
exactly the step sequence of the specification, in its order: timer clock
enable; pin clock, pin mode 2, pin alternate function; reload value to ARR;
compare value to the CCR of the channel; mode bits `0b0110`, then preload
enable, in CCMR1 for channels 1-2 and CCMR2 for channels 3-4; output enable in
CCER; CEN in CR1; ARPE in CR1. The compare register write is the sixth
operation, the output enable the ninth and the counter enable the tenth. -/
theorem C9_step_order (pin0 alt0 : Int) (c : ti_pwm_config_t) (hr : c.in_range)
    (hv : check_pwm_config_validity c = ti_errc_t.TI_ERRC_NONE) :
    (ti_set_pwm_trace pin0 alt0 c).2 =
      spec_steps (pwm_set_pin_vals pin0 alt0 c.inst c.channel).1
        (pwm_set_pin_vals pin0 alt0 c.inst c.channel).2 c ∧
    (ti_set_pwm_trace pin0 alt0 c).2.get? 5 =
      some (hw_op.write_field (ccr_reg c.inst c.channel)
        (ccr_field (c.inst = 2 || c.inst = 5) c.channel) (compare_value c)) ∧
    (ti_set_pwm_trace pin0 alt0 c).2.get? 8 =
      some (hw_op.set_field (reg_id.G_TIMx_CCER c.inst)
        (field_id.G_TIMx_CCER_CCxE c.channel)) ∧
    (ti_set_pwm_trace pin0 alt0 c).2.get? 9 =
      some (hw_op.set_field (reg_id.G_TIMx_CR1 c.inst) field_id.G_TIMx_CR1_CEN) := by
  rw [trace_accepted pin0 alt0 c hr hv]
  simp [spec_steps]

theorem C9_step_order_witness :
    sample_config.in_range ∧
    check_pwm_config_validity sample_config = ti_errc_t.TI_ERRC_NONE ∧
    ((ti_set_pwm_trace 0 0 sample_config).2 =
      spec_steps (pwm_set_pin_vals 0 0 sample_config.inst sample_config.channel).1
        (pwm_set_pin_vals 0 0 sample_config.inst sample_config.channel).2 sample_config ∧
    (ti_set_pwm_trace 0 0 sample_config).2.get? 5 =
      some (hw_op.write_field (ccr_reg sample_config.inst sample_config.channel)
        (ccr_field (sample_config.inst = 2 || sample_config.inst = 5) sample_config.channel)
        (compare_value sample_config)) ∧
    (ti_set_pwm_trace 0 0 sample_config).2.get? 8 =
      some (hw_op.set_field (reg_id.G_TIMx_CCER sample_config.inst)
        (field_id.G_TIMx_CCER_CCxE sample_config.channel)) ∧
    (ti_set_pwm_trace 0 0 sample_config).2.get? 9 =
      some (hw_op.set_field (reg_id.G_TIMx_CR1 sample_config.inst)
        field_id.G_TIMx_CR1_CEN)) :=
  ⟨by decide, by decide, C9_step_order 0 0 sample_config (by decide) (by decide)⟩

/-! ## Calls on distinct timer instances -/

/-- C10, as the code has it: for every two accepted records whose instance
fields differ and every initial hardware state, running `ti_set_pwm` with the
first and then the second leaves the same registers (timer registers and
clock-enable register) and the same clock and mode of every GPIO pin as
running them in the opposite order; unless the records have the same channel
and the instances 2 and 5, it leaves the same alternate-function selectors
too, hence the same hardware state. -/
theorem C10_distinct_instances (F : field_id → field32_t) (pin0 alt0 : Int)
    (c1 c2 : ti_pwm_config_t) (s : hw_state) (hr1 : c1.in_range) (hr2 : c2.in_range)
    (hv1 : check_pwm_config_validity c1 = ti_errc_t.TI_ERRC_NONE)
    (hv2 : check_pwm_config_validity c2 = ti_errc_t.TI_ERRC_NONE)
    (hne : c1.inst ≠ c2.inst) :
    (ti_set_pwm F pin0 alt0 c2 (ti_set_pwm F pin0 alt0 c1 s).2).2.regs =
      (ti_set_pwm F pin0 alt0 c1 (ti_set_pwm F pin0 alt0 c2 s).2).2.regs ∧
    (∀ p : Int,
      ((ti_set_pwm F pin0 alt0 c2 (ti_set_pwm F pin0 alt0 c1 s).2).2.gpio p).clock =
        ((ti_set_pwm F pin0 alt0 c1 (ti_set_pwm F pin0 alt0 c2 s).2).2.gpio p).clock ∧
      ((ti_set_pwm F pin0 alt0 c2 (ti_set_pwm F pin0 alt0 c1 s).2).2.gpio p).mode =
        ((ti_set_pwm F pin0 alt0 c1 (ti_set_pwm F pin0 alt0 c2 s).2).2.gpio p).mode) ∧
    (¬ (c1.channel = c2.channel ∧
        ((c1.inst = 2 ∧ c2.inst = 5) ∨ (c1.inst = 5 ∧ c2.inst = 2))) →
      (ti_set_pwm F pin0 alt0 c2 (ti_set_pwm F pin0 alt0 c1 s).2).2 =
        (ti_set_pwm F pin0 alt0 c1 (ti_set_pwm F pin0 alt0 c2 s).2).2) := by
  obtain ⟨-, -, -, -, hch1, hin1⟩ := (check_none_iff c1 hr1).1 hv1
  obtain ⟨-, -, -, -, hch2, hin2⟩ := (check_none_iff c2 hr2).1 hv2
  unfold ti_set_pwm
  simp only [trace_accepted pin0 alt0 c1 hr1 hv1, trace_accepted pin0 alt0 c2 hr2 hv2]
  have hregs := reg_foldl_comm F c1.inst c2.inst hne _ _
    (spec_steps_local (pwm_set_pin_vals pin0 alt0 c1.inst c1.channel).1
      (pwm_set_pin_vals pin0 alt0 c1.inst c1.channel).2 c1)
    (spec_steps_local (pwm_set_pin_vals pin0 alt0 c2.inst c2.channel).1
      (pwm_set_pin_vals pin0 alt0 c2.inst c2.channel).2 c2) s.regs
  refine ⟨?_, ?_, ?_⟩
  · simp only [exec_regs]
    exact hregs
  · intro p
    simp only [exec_gpio, spec_steps_gpio]
    constructor <;> split_ifs <;> rfl
  · intro hns
    have hpin : (pwm_set_pin_vals pin0 alt0 c1.inst c1.channel).1 ≠
        (pwm_set_pin_vals pin0 alt0 c2.inst c2.channel).1 :=
      fun h => hns (pin_shared pin0 alt0 pin0 alt0 c1.inst c1.channel c2.inst c2.channel
        hin1 hch1 hin2 hch2 hne h)
    apply hw_state.ext
    · simp only [exec_regs]
      exact hregs
    · simp only [exec_gpio, spec_steps_gpio]
      funext p
      by_cases h1 : p = (pwm_set_pin_vals pin0 alt0 c1.inst c1.channel).1
      · have h2 : p ≠ (pwm_set_pin_vals pin0 alt0 c2.inst c2.channel).1 := h1 ▸ hpin
        simp [h1, hpin]
      · simp [h1]

theorem C10_distinct_instances_witness :
    sample_config.in_range ∧ sample_config_16.in_range ∧
    check_pwm_config_validity sample_config = ti_errc_t.TI_ERRC_NONE ∧
    check_pwm_config_validity sample_config_16 = ti_errc_t.TI_ERRC_NONE ∧
    sample_config.inst ≠ sample_config_16.inst ∧
    ((ti_set_pwm sample_fields 0 0 sample_config_16
        (ti_set_pwm sample_fields 0 0 sample_config reset_state).2).2.regs =
      (ti_set_pwm sample_fields 0 0 sample_config
        (ti_set_pwm sample_fields 0 0 sample_config_16 reset_state).2).2.regs ∧
    (∀ p : Int,
      ((ti_set_pwm sample_fields 0 0 sample_config_16
          (ti_set_pwm sample_fields 0 0 sample_config reset_state).2).2.gpio p).clock =
        ((ti_set_pwm sample_fields 0 0 sample_config
          (ti_set_pwm sample_fields 0 0 sample_config_16 reset_state).2).2.gpio p).clock ∧
      ((ti_set_pwm sample_fields 0 0 sample_config_16
          (ti_set_pwm sample_fields 0 0 sample_config reset_state).2).2.gpio p).mode =
        ((ti_set_pwm sample_fields 0 0 sample_config
          (ti_set_pwm sample_fields 0 0 sample_config_16 reset_state).2).2.gpio p).mode) ∧
    (¬ (sample_config.channel = sample_config_16.channel ∧
        ((sample_config.inst = 2 ∧ sample_config_16.inst = 5) ∨
          (sample_config.inst = 5 ∧ sample_config_16.inst = 2))) →
      (ti_set_pwm sample_fields 0 0 sample_config_16
        (ti_set_pwm sample_fields 0 0 sample_config reset_state).2).2 =
        (ti_set_pwm sample_fields 0 0 sample_config
          (ti_set_pwm sample_fields 0 0 sample_config_16 reset_state).2).2)) :=
  ⟨by decide, by decide, by decide, by decide, by decide,
    C10_distinct_instances sample_fields 0 0 sample_config sample_config_16 reset_state
      (by decide) (by decide) (by decide) (by decide) (by decide)⟩

/-- C10 fails as stated: timer 2 and timer 5 resolve channel 1 to the same
pin 37 with the selectors 1 and 2. Both sample records are accepted and the
two instances differ, yet after timer 2 then timer 5 the selector of pin 37 is 2,
after timer 5 then timer 2 it is 1, so the two final hardware states differ. -/
theorem C10_counterexample :
    sample_config.in_range ∧ sample_config_tim5.in_range ∧
    check_pwm_config_validity sample_config = ti_errc_t.TI_ERRC_NONE ∧
    check_pwm_config_validity sample_config_tim5 = ti_errc_t.TI_ERRC_NONE ∧
    sample_config.inst ≠ sample_config_tim5.inst ∧
    ((ti_set_pwm sample_fields 0 0 sample_config_tim5
        (ti_set_pwm sample_fields 0 0 sample_config reset_state).2).2.gpio 37).alt = 2 ∧
    ((ti_set_pwm sample_fields 0 0 sample_config
        (ti_set_pwm sample_fields 0 0 sample_config_tim5 reset_state).2).2.gpio 37).alt = 1 ∧
    (ti_set_pwm sample_fields 0 0 sample_config_tim5
        (ti_set_pwm sample_fields 0 0 sample_config reset_state).2).2 ≠
      (ti_set_pwm sample_fields 0 0 sample_config
        (ti_set_pwm sample_fields 0 0 sample_config_tim5 reset_state).2).2 := by
  have hA : ((ti_set_pwm sample_fields 0 0 sample_config_tim5
      (ti_set_pwm sample_fields 0 0 sample_config reset_state).2).2.gpio 37).alt = 2 := by
    decide
  have hB : ((ti_set_pwm sample_fields 0 0 sample_config
      (ti_set_pwm sample_fields 0 0 sample_config_tim5 reset_state).2).2.gpio 37).alt = 1 := by
    decide
  refine ⟨by decide, by decide, by decide, by decide, by decide, hA, hB, ?_⟩
  intro h
  rw [h, hB] at hA
  exact absurd hA (by decide)

/-! ## End-to-end example -/

/-- C11: for the record `{channel=1, instance=2, freq=1000, duty=500,
clock_freq=2000000}`, `ti_set_pwm` reports `TI_ERRC_NONE`, resolves pin 37 with
alternate-function selector 1, writes 1999 through the 32-bit ARR field of
timer 2 and 999 through the 32-bit CCR1 field of timer 2; the whole sequence of
hardware operations is the one listed. -/
theorem C11_end_to_end (F : field_id → field32_t) (pin0 alt0 : Int) (s : hw_state) :
    sample_config = ti_pwm_config_t.mk 1 2 1000 500 2000000 ∧
    (ti_set_pwm F pin0 alt0 sample_config s).1 = ti_errc_t.TI_ERRC_NONE ∧
    pwm_set_pin_vals pin0 alt0 sample_config.inst sample_config.channel = (37, 1) ∧
    writes_to (reg_id.G_TIMx_ARR 2) (ti_set_pwm_trace pin0 alt0 sample_config).2 =
      [(field_id.G_TIMx_ARR_ARR_32B, 1999)] ∧
    writes_to (reg_id.G_TIMx_CCR1 2) (ti_set_pwm_trace pin0 alt0 sample_config).2 =
      [(field_id.G_TIMx_CCR1_CCR1_32B, 999)] ∧
    (ti_set_pwm_trace pin0 alt0 sample_config).2 =
      [hw_op.set_field reg_id.RCC_APB1LENR (field_id.RCC_APB1LENR_TIMxEN 2),
       hw_op.enable_clock 37,
       hw_op.set_mode 37 2,
       hw_op.alternate_mode 37 1,
       hw_op.write_field (reg_id.G_TIMx_ARR 2) field_id.G_TIMx_ARR_ARR_32B 1999,
       hw_op.write_field (reg_id.G_TIMx_CCR1 2) field_id.G_TIMx_CCR1_CCR1_32B 999,
       hw_op.write_field (reg_id.G_TIMx_CCMR1_OUTPUT 2) (field_id.G_TIMx_CCMR1_OUTPUT_OCxM 1) 6,
       hw_op.set_field (reg_id.G_TIMx_CCMR1_OUTPUT 2) (field_id.G_TIMx_CCMR1_OUTPUT_OCxPE 1),
       hw_op.set_field (reg_id.G_TIMx_CCER 2) (field_id.G_TIMx_CCER_CCxE 1),
       hw_op.set_field (reg_id.G_TIMx_CR1 2) field_id.G_TIMx_CR1_CEN,
       hw_op.set_field (reg_id.G_TIMx_CR1 2) field_id.G_TIMx_CR1_ARPE] := by
  have ht := trace_accepted pin0 alt0 sample_config (by decide) (by decide)
  have h1 : reload_value sample_config = 1999 := by decide
  have h2 : compare_value sample_config = 999 := by decide
  have hp : pwm_set_pin_vals pin0 alt0 sample_config.inst sample_config.channel = (37, 1) := by
    simp [pwm_set_pin_vals, pin_switch, sample_config]
  have hl : (ti_set_pwm_trace pin0 alt0 sample_config).2 =
      [hw_op.set_field reg_id.RCC_APB1LENR (field_id.RCC_APB1LENR_TIMxEN 2),
       hw_op.enable_clock 37,
       hw_op.set_mode 37 2,
       hw_op.alternate_mode 37 1,
       hw_op.write_field (reg_id.G_TIMx_ARR 2) field_id.G_TIMx_ARR_ARR_32B 1999,
       hw_op.write_field (reg_id.G_TIMx_CCR1 2) field_id.G_TIMx_CCR1_CCR1_32B 999,
       hw_op.write_field (reg_id.G_TIMx_CCMR1_OUTPUT 2) (field_id.G_TIMx_CCMR1_OUTPUT_OCxM 1) 6,
       hw_op.set_field (reg_id.G_TIMx_CCMR1_OUTPUT 2) (field_id.G_TIMx_CCMR1_OUTPUT_OCxPE 1),
       hw_op.set_field (reg_id.G_TIMx_CCER 2) (field_id.G_TIMx_CCER_CCxE 1),
       hw_op.set_field (reg_id.G_TIMx_CR1 2) field_id.G_TIMx_CR1_CEN,
       hw_op.set_field (reg_id.G_TIMx_CR1 2) field_id.G_TIMx_CR1_ARPE] := by
    rw [ht, hp]
    simp only [spec_steps, h1, h2]
    simp [sample_config, arr_field, ccr_reg, ccr_field, ccmr_reg, ocxm_field, ocxpe_field]
  refine ⟨rfl, ?_, hp, ?_, ?_, hl⟩
  · unfold ti_set_pwm
    rw [ht]
  · rw [hl]
    simp [writes_to]
  · rw [hl]
    simp [writes_to]

/-! ## Pin resolver outside the validated domain -/

/-- C12, as the code has it: for every pair outside the validated domain
(instance not in 2..5 or channel not in 1..4) and every value the two slots
hold on entry, `pwm_set_pin_vals` leaves the pin slot at the value it held on
entry; the selector slot is written all the same, with 1 if the instance is 2
and 2 otherwise. -/
theorem C12_unmapped_pin_kept (pin alt_mode inst channel : Int)
    (hout : ¬ in_domain inst channel) :
    (pwm_set_pin_vals pin alt_mode inst channel).1 = pin ∧
    (pwm_set_pin_vals pin alt_mode inst channel).2 = (if inst = 2 then 1 else 2) := by
  unfold in_domain at hout
  unfold pwm_set_pin_vals pin_switch
  constructor
  · split_ifs <;> first | rfl | omega
  · split_ifs <;> rfl

theorem C12_unmapped_pin_kept_witness :
    ¬ in_domain 7 1 ∧
    ((pwm_set_pin_vals 0 9 7 1).1 = 0 ∧
      (pwm_set_pin_vals 0 9 7 1).2 = (if (7 : Int) = 2 then 1 else 2)) :=
  ⟨by decide, C12_unmapped_pin_kept 0 9 7 1 (by decide)⟩

/-- C12 fails as stated: for instance 7 and channel 1, outside the validated
domain, with 9 in the selector slot on entry, `pwm_set_pin_vals` leaves 2 in
the selector slot, not 9. -/
theorem C12_counterexample :
    ¬ in_domain 7 1 ∧ (pwm_set_pin_vals 0 9 7 1).2 = 2 ∧
    ¬ ((pwm_set_pin_vals 0 9 7 1).1 = 0 ∧ (pwm_set_pin_vals 0 9 7 1).2 = 9) := by
  decide

/-! ## The defensive failure of the register programmer -/

/-- C13: for every record of `int32_t` fields, the `default` branch of the
channel switch of `ti_set_pwm` is not taken once the first check and the
validator have passed; whenever `ti_set_pwm` reports `TI_ERRC_INVALID_ARG` it
has performed no hardware operation, and whenever it has performed a hardware
operation it reports `TI_ERRC_NONE` and has performed the whole step
sequence. -/
theorem C13_default_unreachable (pin0 alt0 : Int) (c : ti_pwm_config_t) (hr : c.in_range) :
    (¬ c.inst > INSTANCE_COUNT →
      check_pwm_config_validity c = ti_errc_t.TI_ERRC_NONE →
      ∀ (f1 f2 f3 f4 : field_id) (v : Int), ccr_switch c.inst c.channel f1 f2 f3 f4 v ≠ none) ∧
    ((ti_set_pwm_trace pin0 alt0 c).1 = ti_errc_t.TI_ERRC_INVALID_ARG →
      (ti_set_pwm_trace pin0 alt0 c).2 = []) ∧
    ((ti_set_pwm_trace pin0 alt0 c).2 ≠ [] →
      (ti_set_pwm_trace pin0 alt0 c).1 = ti_errc_t.TI_ERRC_NONE ∧
      (ti_set_pwm_trace pin0 alt0 c).2 =
        spec_steps (pwm_set_pin_vals pin0 alt0 c.inst c.channel).1
          (pwm_set_pin_vals pin0 alt0 c.inst c.channel).2 c) := by
  refine ⟨?_, ?_, ?_⟩
  · intro _ hv f1 f2 f3 f4 v
    obtain ⟨-, -, -, -, ⟨hc1, hc2⟩, -⟩ := (check_none_iff c hr).1 hv
    have hch : c.channel = 1 ∨ c.channel = 2 ∨ c.channel = 3 ∨ c.channel = 4 := by omega
    rcases hch with h | h | h | h <;> simp [ccr_switch, h]
  · intro he
    by_cases hv : check_pwm_config_validity c = ti_errc_t.TI_ERRC_NONE
    · rw [trace_accepted pin0 alt0 c hr hv] at he
      simp at he
    · rw [trace_rejected pin0 alt0 c hv]
  · intro hne
    by_cases hv : check_pwm_config_validity c = ti_errc_t.TI_ERRC_NONE
    · rw [trace_accepted pin0 alt0 c hr hv]
      exact ⟨rfl, rfl⟩
    · rw [trace_rejected pin0 alt0 c hv] at hne
      exact absurd rfl hne

theorem C13_default_unreachable_witness :
    sample_config_tim5.in_range ∧
    ((¬ sample_config_tim5.inst > INSTANCE_COUNT →
      check_pwm_config_validity sample_config_tim5 = ti_errc_t.TI_ERRC_NONE →
      ∀ (f1 f2 f3 f4 : field_id) (v : Int),
        ccr_switch sample_config_tim5.inst sample_config_tim5.channel f1 f2 f3 f4 v ≠ none) ∧
    ((ti_set_pwm_trace 0 0 sample_config_tim5).1 = ti_errc_t.TI_ERRC_INVALID_ARG →
      (ti_set_pwm_trace 0 0 sample_config_tim5).2 = []) ∧
    ((ti_set_pwm_trace 0 0 sample_config_tim5).2 ≠ [] →
      (ti_set_pwm_trace 0 0 sample_config_tim5).1 = ti_errc_t.TI_ERRC_NONE ∧
      (ti_set_pwm_trace 0 0 sample_config_tim5).2 =
        spec_steps (pwm_set_pin_vals 0 0 sample_config_tim5.inst sample_config_tim5.channel).1
          (pwm_set_pin_vals 0 0 sample_config_tim5.inst sample_config_tim5.channel).2
          sample_config_tim5)) :=
  ⟨by decide, C13_default_unreachable 0 0 sample_config_tim5 (by decide)⟩

/-! ## Validator and register programmer -/

/-- The one value an accepted record writes to the auto-reload register. -/
theorem arr_write_value (pin0 alt0 : Int) (c : ti_pwm_config_t) (hr : c.in_range)
    (hv : check_pwm_config_validity c = ti_errc_t.TI_ERRC_NONE) :
    (writes_to (reg_id.G_TIMx_ARR c.inst) (ti_set_pwm_trace pin0 alt0 c).2).map Prod.snd =
      [reload_value c] := by
  obtain ⟨-, -, -, -, ⟨hc1, hc2⟩, -⟩ := (check_none_iff c hr).1 hv
  have hch : c.channel = 1 ∨ c.channel = 2 ∨ c.channel = 3 ∨ c.channel = 4 := by omega
  rw [trace_accepted pin0 alt0 c hr hv]
  rcases hch with h | h | h | h <;> simp [h, spec_steps, writes_to, ccr_reg, ccmr_reg]

/-- The one value an accepted record writes to the capture/compare register
of its channel. -/
theorem ccr_write_value (pin0 alt0 : Int) (c : ti_pwm_config_t) (hr : c.in_range)
    (hv : check_pwm_config_validity c = ti_errc_t.TI_ERRC_NONE) :
    (writes_to (ccr_reg c.inst c.channel) (ti_set_pwm_trace pin0 alt0 c).2).map Prod.snd =
      [compare_value c] := by
  obtain ⟨-, -, -, -, ⟨hc1, hc2⟩, -⟩ := (check_none_iff c hr).1 hv
  have hch : c.channel = 1 ∨ c.channel = 2 ∨ c.channel = 3 ∨ c.channel = 4 := by omega
  rw [trace_accepted pin0 alt0 c hr hv]
  rcases hch with h | h | h | h <;> simp [h, spec_steps, writes_to, ccr_reg, ccmr_reg]

/-- A value below `2^16` written through the 16-bit low-half field is read
back unchanged, whatever the register held. -/
theorem read_write_low16 (reg : Nat) (v : Int) (h0 : 0 ≤ v) (h1 : v < 65536) :
    READ_FIELD (WRITE_FIELD reg field16_low v) field16_low = v.toNat := by
  have hu : to_uint32 v = v.toNat := by
    unfold to_uint32
    congr 1
    omega
  have hlt : v.toNat < 2 ^ 16 := by omega
  have hm : (0xFFFF : Nat) = 2 ^ 16 - 1 := by norm_num
  unfold READ_FIELD WRITE_FIELD field16_low
  simp only [hu, Nat.shiftLeft_zero, Nat.shiftRight_zero, hm]
  apply Nat.eq_of_testBit_eq
  intro k
  simp only [Nat.testBit_and, Nat.testBit_or, Nat.testBit_xor, Nat.testBit_two_pow_sub_one]
  by_cases hk : k < 16
  · simp [hk]
  · have hf : v.toNat.testBit k = false :=
      Nat.testBit_lt_two_pow
        (lt_of_lt_of_le hlt (Nat.pow_le_pow_right (by norm_num) (Nat.le_of_not_lt hk)))
    simp [hk, hf]

/-- C14: for every accepted record, the reload value written to ARR is one
less than the quotient the validator checked, it lies in `0..65534`, and the
compare value written to the CCR of the channel lies between 0 and the reload
value; both are below `2^16`, and written through the 16-bit low-half field
they are read back unchanged, whatever the register held. -/
theorem C14_values_fit (pin0 alt0 : Int) (c : ti_pwm_config_t) (hr : c.in_range)
    (hv : check_pwm_config_validity c = ti_errc_t.TI_ERRC_NONE) :
    (writes_to (reg_id.G_TIMx_ARR c.inst) (ti_set_pwm_trace pin0 alt0 c).2).map Prod.snd =
      [div_int32 c.clock_freq c.freq - 1] ∧
    ¬ prescaler_check_fails c.freq c.clock_freq ∧
    (0 ≤ div_int32 c.clock_freq c.freq - 1 ∧ div_int32 c.clock_freq c.freq - 1 ≤ 65534) ∧
    (writes_to (ccr_reg c.inst c.channel) (ti_set_pwm_trace pin0 alt0 c).2).map Prod.snd =
      [compare_value c] ∧
    (0 ≤ compare_value c ∧ compare_value c ≤ div_int32 c.clock_freq c.freq - 1) ∧
    (∀ reg : Nat,
      READ_FIELD (WRITE_FIELD reg field16_low (div_int32 c.clock_freq c.freq - 1)) field16_low =
        (div_int32 c.clock_freq c.freq - 1).toNat) ∧
    (∀ reg : Nat,
      READ_FIELD (WRITE_FIELD reg field16_low (compare_value c)) field16_low =
        (compare_value c).toNat) := by
  have hs := (check_none_iff c hr).1 hv
  obtain ⟨h1, -, h3, -, -, -⟩ := accepted_arith c hr hs
  obtain ⟨hf, hc, ⟨hq1, hq2⟩, -, -, -⟩ := hs
  have hd : div_int32 c.clock_freq c.freq = Int.tdiv c.clock_freq c.freq :=
    div_int32_eq (le_of_lt hc) hf hr.2.2.2.2
  have hrl : div_int32 c.clock_freq c.freq - 1 = reload_value c := by
    rw [hd]; rfl
  rw [hrl]
  refine ⟨arr_write_value pin0 alt0 c hr hv, ?_, h1, ccr_write_value pin0 alt0 c hr hv, h3,
    ?_, ?_⟩
  · unfold prescaler_check_fails UINT16_MAX
    rw [hd]
    omega
  · intro reg
    exact read_write_low16 reg _ h1.1 (by omega)
  · intro reg
    exact read_write_low16 reg _ h3.1 (by omega)

theorem C14_values_fit_witness :
    sample_config_16.in_range ∧
    check_pwm_config_validity sample_config_16 = ti_errc_t.TI_ERRC_NONE ∧
    ((writes_to (reg_id.G_TIMx_ARR sample_config_16.inst)
        (ti_set_pwm_trace 0 0 sample_config_16).2).map Prod.snd =
      [div_int32 sample_config_16.clock_freq sample_config_16.freq - 1] ∧
    ¬ prescaler_check_fails sample_config_16.freq sample_config_16.clock_freq ∧
    (0 ≤ div_int32 sample_config_16.clock_freq sample_config_16.freq - 1 ∧
      div_int32 sample_config_16.clock_freq sample_config_16.freq - 1 ≤ 65534) ∧
    (writes_to (ccr_reg sample_config_16.inst sample_config_16.channel)
        (ti_set_pwm_trace 0 0 sample_config_16).2).map Prod.snd =
      [compare_value sample_config_16] ∧
    (0 ≤ compare_value sample_config_16 ∧
      compare_value sample_config_16 ≤
        div_int32 sample_config_16.clock_freq sample_config_16.freq - 1) ∧
    (∀ reg : Nat,
      READ_FIELD (WRITE_FIELD reg field16_low
          (div_int32 sample_config_16.clock_freq sample_config_16.freq - 1)) field16_low =
        (div_int32 sample_config_16.clock_freq sample_config_16.freq - 1).toNat) ∧
    (∀ reg : Nat,
      READ_FIELD (WRITE_FIELD reg field16_low (compare_value sample_config_16)) field16_low =
        (compare_value sample_config_16).toNat)) :=
  ⟨by decide, by decide, C14_values_fit 0 0 sample_config_16 (by decide) (by decide)⟩

/-! ## The first check of the entry point -/

/-- C15: the first check of the entry point (`instance > 5`) is redundant: for
every record and every initial hardware state, `ti_set_pwm` leaves the same
error code and the same hardware state, through the same hardware operations,
as the entry point with the first check removed; the validator alone rejects
every record with `instance > 5`, with `TI_ERRC_INVALID_ARG`. -/
theorem C15_first_check_redundant (F : field_id → field32_t) (pin0 alt0 : Int)
    (c : ti_pwm_config_t) (s : hw_state) :
    ti_set_pwm_trace pin0 alt0 c = ti_set_pwm_trace_unguarded pin0 alt0 c ∧
    ti_set_pwm F pin0 alt0 c s = ti_set_pwm_unguarded F pin0 alt0 c s ∧
    (c.inst > INSTANCE_COUNT →
      check_pwm_config_validity c = ti_errc_t.TI_ERRC_INVALID_ARG ∧
      ti_set_pwm_unguarded F pin0 alt0 c s = (ti_errc_t.TI_ERRC_INVALID_ARG, s)) := by
  have hrej : c.inst > INSTANCE_COUNT →
      check_pwm_config_validity c = ti_errc_t.TI_ERRC_INVALID_ARG := by
    intro hi
    unfold INSTANCE_COUNT at hi
    unfold check_pwm_config_validity
    dsimp only
    split_ifs <;> first | rfl | omega
  have ht : ti_set_pwm_trace pin0 alt0 c = ti_set_pwm_trace_unguarded pin0 alt0 c := by
    by_cases hi : c.inst > INSTANCE_COUNT
    · unfold ti_set_pwm_trace ti_set_pwm_trace_unguarded
      simp [hi, hrej hi]
    · unfold ti_set_pwm_trace ti_set_pwm_trace_unguarded
      simp only [hi, if_false]
  refine ⟨ht, ?_, ?_⟩
  · unfold ti_set_pwm ti_set_pwm_unguarded
    rw [ht]
  · intro hi
    refine ⟨hrej hi, ?_⟩
    unfold ti_set_pwm_unguarded ti_set_pwm_trace_unguarded
    simp [hrej hi, exec]

theorem C15_first_check_redundant_witness :
    sample_config_tim6.inst > INSTANCE_COUNT ∧
    (ti_set_pwm_trace 0 0 sample_config_tim6 = ti_set_pwm_trace_unguarded 0 0 sample_config_tim6 ∧
    ti_set_pwm sample_fields 0 0 sample_config_tim6 reset_state =
      ti_set_pwm_unguarded sample_fields 0 0 sample_config_tim6 reset_state ∧
    (sample_config_tim6.inst > INSTANCE_COUNT →
      check_pwm_config_validity sample_config_tim6 = ti_errc_t.TI_ERRC_INVALID_ARG ∧
      ti_set_pwm_unguarded sample_fields 0 0 sample_config_tim6 reset_state =
        (ti_errc_t.TI_ERRC_INVALID_ARG, reset_state))) :=
  ⟨by decide, C15_first_check_redundant sample_fields 0 0 sample_config_tim6 reset_state⟩

/-! ## Frame of a successful call -/

/-- An operation whose register footprint lies within timer instance `i`
leaves every register of another instance as it was. -/
theorem reg_step_frame (F : field_id → field32_t) (R : reg_id → Nat) (op : hw_op) (i : Int)
    (r : reg_id) (hl : reg_local i op) (h1 : r ≠ reg_id.RCC_APB1LENR)
    (h2 : r.timer ≠ some i) : reg_step F R op r = R r := by
  cases op with
  | set_field dst field =>
    have hd : r ≠ dst := by
      intro h
      rcases hl with hl | hl
      · exact h1 (h.trans hl)
      · exact h2 (h ▸ hl)
    simp [reg_step, hd]
  | write_field dst field value =>
    have hd : r ≠ dst := by
      intro h
      exact h2 (h ▸ hl)
    simp [reg_step, hd]
  | enable_clock pin => rfl
  | set_mode pin mode => rfl
  | alternate_mode pin alt => rfl

theorem reg_foldl_frame (F : field_id → field32_t) (i : Int) (r : reg_id)
    (h1 : r ≠ reg_id.RCC_APB1LENR) (h2 : r.timer ≠ some i) (ops : List hw_op)
    (hl : ∀ op ∈ ops, reg_local i op) (R : reg_id → Nat) :
    ops.foldl (reg_step F) R r = R r := by
  induction ops generalizing R with
  | nil => rfl
  | cons op ops ih =>
    simp only [List.foldl_cons]
    rw [ih (fun x hx => hl x (List.mem_cons_of_mem op hx)) (reg_step F R op)]
    exact reg_step_frame F R op i r (hl op (List.mem_cons_self op ops)) h1 h2

/-- C16: for every accepted record with instance `i` and channel `c` and every
initial hardware state, `ti_set_pwm` changes no register of a timer instance
other than `i`, none of the three capture/compare registers of instance `i`
whose index differs from `c`, no bit of the clock-enable register outside the
enable field of instance `i`, and the configuration of no GPIO pin other than
the pin resolved for `(i, c)`. -/
theorem C16_frame (F : field_id → field32_t) (pin0 alt0 : Int) (c : ti_pwm_config_t)
    (s : hw_state) (hr : c.in_range)
    (hv : check_pwm_config_validity c = ti_errc_t.TI_ERRC_NONE) :
    (∀ r : reg_id, r ≠ reg_id.RCC_APB1LENR → r.timer ≠ some c.inst →
      (ti_set_pwm F pin0 alt0 c s).2.regs r = s.regs r) ∧
    (∀ ch : Int, 1 ≤ ch ∧ ch ≤ 4 → ch ≠ c.channel →
      (ti_set_pwm F pin0 alt0 c s).2.regs (ccr_reg c.inst ch) = s.regs (ccr_reg c.inst ch)) ∧
    (ti_set_pwm F pin0 alt0 c s).2.regs reg_id.RCC_APB1LENR =
      SET_FIELD (s.regs reg_id.RCC_APB1LENR) (F (field_id.RCC_APB1LENR_TIMxEN c.inst)) ∧
    (∀ k : Nat, (F (field_id.RCC_APB1LENR_TIMxEN c.inst)).msk.testBit k = false →
      ((ti_set_pwm F pin0 alt0 c s).2.regs reg_id.RCC_APB1LENR).testBit k =
        (s.regs reg_id.RCC_APB1LENR).testBit k) ∧
    (∀ p : Int, p ≠ (pwm_set_pin_vals pin0 alt0 c.inst c.channel).1 →
      (ti_set_pwm F pin0 alt0 c s).2.gpio p = s.gpio p) := by
  obtain ⟨-, -, -, -, ⟨hc1, hc2⟩, -⟩ := (check_none_iff c hr).1 hv
  have hch : c.channel = 1 ∨ c.channel = 2 ∨ c.channel = 3 ∨ c.channel = 4 := by omega
  have hrcc : (exec F s (spec_steps (pwm_set_pin_vals pin0 alt0 c.inst c.channel).1
      (pwm_set_pin_vals pin0 alt0 c.inst c.channel).2 c)).regs reg_id.RCC_APB1LENR =
      SET_FIELD (s.regs reg_id.RCC_APB1LENR) (F (field_id.RCC_APB1LENR_TIMxEN c.inst)) := by
    simp only [exec_regs]
    rcases hch with h | h | h | h <;> simp [h, spec_steps, reg_step, ccr_reg, ccmr_reg]
  unfold ti_set_pwm
  simp only [trace_accepted pin0 alt0 c hr hv]
  refine ⟨?_, ?_, hrcc, ?_, ?_⟩
  · intro r h1 h2
    simp only [exec_regs]
    exact reg_foldl_frame F c.inst r h1 h2 _ (spec_steps_local _ _ c) s.regs
  · intro ch hb hne
    have hch2 : ch = 1 ∨ ch = 2 ∨ ch = 3 ∨ ch = 4 := by omega
    simp only [exec_regs]
    rcases hch with h | h | h | h <;> rcases hch2 with h' | h' | h' | h' <;>
      first
        | (exfalso; omega)
        | simp [h, h', spec_steps, reg_step, ccr_reg, ccmr_reg]
  · intro k hk
    rw [hrcc]
    simp [SET_FIELD, hk]
  · intro p hp
    simp only [exec_gpio, spec_steps_gpio]
    simp [hp]

theorem C16_frame_witness :
    sample_config_16.in_range ∧
    check_pwm_config_validity sample_config_16 = ti_errc_t.TI_ERRC_NONE ∧
    ((∀ r : reg_id, r ≠ reg_id.RCC_APB1LENR → r.timer ≠ some sample_config_16.inst →
      (ti_set_pwm sample_fields 0 0 sample_config_16 reset_state).2.regs r =
        reset_state.regs r) ∧
    (∀ ch : Int, 1 ≤ ch ∧ ch ≤ 4 → ch ≠ sample_config_16.channel →
      (ti_set_pwm sample_fields 0 0 sample_config_16 reset_state).2.regs
          (ccr_reg sample_config_16.inst ch) =
        reset_state.regs (ccr_reg sample_config_16.inst ch)) ∧
    (ti_set_pwm sample_fields 0 0 sample_config_16 reset_state).2.regs reg_id.RCC_APB1LENR =
      SET_FIELD (reset_state.regs reg_id.RCC_APB1LENR)
        (sample_fields (field_id.RCC_APB1LENR_TIMxEN sample_config_16.inst)) ∧
    (∀ k : Nat,
      (sample_fields (field_id.RCC_APB1LENR_TIMxEN sample_config_16.inst)).msk.testBit k =
          false →
      ((ti_set_pwm sample_fields 0 0 sample_config_16 reset_state).2.regs
          reg_id.RCC_APB1LENR).testBit k =
        (reset_state.regs reg_id.RCC_APB1LENR).testBit k) ∧
    (∀ p : Int, p ≠ (pwm_set_pin_vals 0 0 sample_config_16.inst sample_config_16.channel).1 →
      (ti_set_pwm sample_fields 0 0 sample_config_16 reset_state).2.gpio p =
        reset_state.gpio p)) :=
  ⟨by decide, by decide,
    C16_frame sample_fields 0 0 sample_config_16 reset_state (by decide) (by decide)⟩

/-! ## Pin sharing -/

/-- C17: two pairs of the validated domain resolve to the same pin exactly
when the channels agree and the instances are equal or are 2 and 5; the map to
the pair of pin and selector is injective on the validated domain, the map to
the pin alone is not: `(2, 1)` and `(5, 1)` resolve to the same pin. -/
theorem C17_pin_sharing (pin alt_mode pin' alt_mode' i1 c1 i2 c2 : Int)
    (h1 : in_domain i1 c1) (h2 : in_domain i2 c2) :
    ((pwm_set_pin_vals pin alt_mode i1 c1).1 = (pwm_set_pin_vals pin' alt_mode' i2 c2).1 ↔
      c1 = c2 ∧ (i1 = i2 ∨ (i1 = 2 ∧ i2 = 5) ∨ (i1 = 5 ∧ i2 = 2))) ∧
    (pwm_set_pin_vals pin alt_mode i1 c1 = pwm_set_pin_vals pin' alt_mode' i2 c2 →
      i1 = i2 ∧ c1 = c2) ∧
    (in_domain 2 1 ∧ in_domain 5 1 ∧ ((2 : Int), (1 : Int)) ≠ (5, 1) ∧
      (pwm_set_pin_vals pin alt_mode 2 1).1 = (pwm_set_pin_vals pin' alt_mode' 5 1).1) := by
  obtain ⟨hi1, hc1⟩ := h1
  obtain ⟨hi2, hc2⟩ := h2
  have hi1' : i1 = 2 ∨ i1 = 3 ∨ i1 = 4 ∨ i1 = 5 := by omega
  have hc1' : c1 = 1 ∨ c1 = 2 ∨ c1 = 3 ∨ c1 = 4 := by omega
  have hi2' : i2 = 2 ∨ i2 = 3 ∨ i2 = 4 ∨ i2 = 5 := by omega
  have hc2' : c2 = 1 ∨ c2 = 2 ∨ c2 = 3 ∨ c2 = 4 := by omega
  refine ⟨?_, ?_, by decide, by decide, by decide, ?_⟩
  · rcases hi1' with a | a | a | a <;> rcases hc1' with b | b | b | b <;>
      rcases hi2' with d | d | d | d <;> rcases hc2' with e | e | e | e <;>
      subst a b d e <;> simp [pwm_set_pin_vals, pin_switch]
  · rcases hi1' with a | a | a | a <;> rcases hc1' with b | b | b | b <;>
      rcases hi2' with d | d | d | d <;> rcases hc2' with e | e | e | e <;>
      subst a b d e <;> simp [pwm_set_pin_vals, pin_switch]
  · simp [pwm_set_pin_vals, pin_switch]

theorem C17_pin_sharing_witness :
    in_domain 2 3 ∧ in_domain 5 3 ∧
    (((pwm_set_pin_vals 0 0 2 3).1 = (pwm_set_pin_vals 7 9 5 3).1 ↔
      (3 : Int) = 3 ∧ ((2 : Int) = 5 ∨ ((2 : Int) = 2 ∧ (5 : Int) = 5) ∨
        ((2 : Int) = 5 ∧ (5 : Int) = 2))) ∧
    (pwm_set_pin_vals 0 0 2 3 = pwm_set_pin_vals 7 9 5 3 → (2 : Int) = 5 ∧ (3 : Int) = 3) ∧
    (in_domain 2 1 ∧ in_domain 5 1 ∧ ((2 : Int), (1 : Int)) ≠ (5, 1) ∧
      (pwm_set_pin_vals 0 0 2 1).1 = (pwm_set_pin_vals 7 9 5 1).1)) :=
  ⟨by decide, by decide, C17_pin_sharing 0 0 7 9 2 3 5 3 (by decide) (by decide)⟩

/-! ## Closed form of the prescaler rule -/

/-- For positive `int32_t` operands the quotient lies in `1..65535` exactly
when `freq <= clock_freq < 65536 * freq`. -/
theorem quotient_range_iff {freq clock_freq : Int} (hf : 0 < freq) (hc : 0 < clock_freq) :
    (1 ≤ Int.tdiv clock_freq freq ∧ Int.tdiv clock_freq freq ≤ 65535) ↔
      (freq ≤ clock_freq ∧ clock_freq < 65536 * freq) := by
  rw [Int.tdiv_eq_ediv (le_of_lt hc) (le_of_lt hf)]
  have h1 : 1 ≤ clock_freq / freq ↔ 1 * freq ≤ clock_freq := Int.le_ediv_iff_mul_le hf
  have h2 : clock_freq / freq < 65536 ↔ clock_freq < 65536 * freq :=
    Int.ediv_lt_iff_lt_mul hf
  constructor
  · intro h
    exact ⟨by have := h1.1 h.1; omega, h2.1 (by omega)⟩
  · intro h
    have := h1.2 (by omega)
    have := h2.2 h.2
    omega

/-- C18: for every record of `int32_t` fields with `freq > 0` and
`clock_freq > 0`, the prescaler check of the validator passes exactly when
`freq <= clock_freq < 65536 * freq` over the mathematical integers; a record
with `clock_freq < freq` is rejected, and with `clock_freq = freq` the
prescaler check passes; the validator accepts the record exactly when this
closed form and the rules on duty, channel and instance hold. -/
theorem C18_prescaler_closed_form (c : ti_pwm_config_t) (hr : c.in_range) (hf : c.freq > 0)
    (hc : c.clock_freq > 0) :
    (¬ prescaler_check_fails c.freq c.clock_freq ↔
      (c.freq ≤ c.clock_freq ∧ c.clock_freq < 65536 * c.freq)) ∧
    (c.clock_freq < c.freq →
      check_pwm_config_validity c = ti_errc_t.TI_ERRC_INVALID_ARG) ∧
    (c.clock_freq = c.freq → ¬ prescaler_check_fails c.freq c.clock_freq) ∧
    (check_pwm_config_validity c = ti_errc_t.TI_ERRC_NONE ↔
      (c.freq ≤ c.clock_freq ∧ c.clock_freq < 65536 * c.freq) ∧
      (0 ≤ c.duty ∧ c.duty ≤ 1000) ∧ (1 ≤ c.channel ∧ c.channel ≤ 4) ∧
      (2 ≤ c.inst ∧ c.inst ≤ 5)) := by
  have hd : div_int32 c.clock_freq c.freq = Int.tdiv c.clock_freq c.freq :=
    div_int32_eq (le_of_lt hc) hf hr.2.2.2.2
  have hb := tdiv_bounds (le_of_lt hc) hf
  have hq := quotient_range_iff hf hc
  have hp : ¬ prescaler_check_fails c.freq c.clock_freq ↔
      (c.freq ≤ c.clock_freq ∧ c.clock_freq < 65536 * c.freq) := by
    rw [← hq]
    unfold prescaler_check_fails UINT16_MAX
    rw [hd]
    omega
  have hcheck : check_pwm_config_validity c = ti_errc_t.TI_ERRC_NONE ↔
      (c.freq ≤ c.clock_freq ∧ c.clock_freq < 65536 * c.freq) ∧
      (0 ≤ c.duty ∧ c.duty ≤ 1000) ∧ (1 ≤ c.channel ∧ c.channel ≤ 4) ∧
      (2 ≤ c.inst ∧ c.inst ≤ 5) := by
    rw [check_none_iff c hr, ← hq]
    unfold spec_valid
    constructor
    · intro h
      exact ⟨h.2.2.1, h.2.2.2⟩
    · intro h
      exact ⟨hf, hc, h.1, h.2⟩
  refine ⟨hp, ?_, ?_, hcheck⟩
  · intro hlt
    cases hcv : check_pwm_config_validity c
    · have := (hcheck.1 hcv).1.1
      omega
    · rfl
  · intro heq
    rw [hp]
    constructor <;> omega

theorem C18_prescaler_closed_form_witness :
    sample_config_unit.in_range ∧ sample_config_unit.freq > 0 ∧
    sample_config_unit.clock_freq > 0 ∧
    ((¬ prescaler_check_fails sample_config_unit.freq sample_config_unit.clock_freq ↔
      (sample_config_unit.freq ≤ sample_config_unit.clock_freq ∧
        sample_config_unit.clock_freq < 65536 * sample_config_unit.freq)) ∧
    (sample_config_unit.clock_freq < sample_config_unit.freq →
      check_pwm_config_validity sample_config_unit = ti_errc_t.TI_ERRC_INVALID_ARG) ∧
    (sample_config_unit.clock_freq = sample_config_unit.freq →
      ¬ prescaler_check_fails sample_config_unit.freq sample_config_unit.clock_freq) ∧
    (check_pwm_config_validity sample_config_unit = ti_errc_t.TI_ERRC_NONE ↔
      (sample_config_unit.freq ≤ sample_config_unit.clock_freq ∧
        sample_config_unit.clock_freq < 65536 * sample_config_unit.freq) ∧
      (0 ≤ sample_config_unit.duty ∧ sample_config_unit.duty ≤ 1000) ∧
      (1 ≤ sample_config_unit.channel ∧ sample_config_unit.channel ≤ 4) ∧
      (2 ≤ sample_config_unit.inst ∧ sample_config_unit.inst ≤ 5))) :=
  ⟨by decide, by decide, by decide,
    C18_prescaler_closed_form sample_config_unit (by decide) (by decide) (by decide)⟩

/-! ## Duty cycle -/

/-- C19: for every two accepted records that agree on channel, instance,
`freq` and `clock_freq` and have duties `d1 <= d2`, the compare value written
for the first is less than or equal to the compare value written, to the same
capture/compare register, for the second. -/
theorem C19_duty_monotone (pin0 alt0 : Int) (c1 c2 : ti_pwm_config_t) (hr1 : c1.in_range)
    (hr2 : c2.in_range) (hv1 : check_pwm_config_validity c1 = ti_errc_t.TI_ERRC_NONE)
    (hv2 : check_pwm_config_validity c2 = ti_errc_t.TI_ERRC_NONE)
    (hch : c1.channel = c2.channel) (hi : c1.inst = c2.inst) (hf : c1.freq = c2.freq)
    (hcf : c1.clock_freq = c2.clock_freq) (hd : c1.duty ≤ c2.duty) :
    (writes_to (ccr_reg c1.inst c1.channel) (ti_set_pwm_trace pin0 alt0 c1).2).map Prod.snd =
      [compare_value c1] ∧
    (writes_to (ccr_reg c1.inst c1.channel) (ti_set_pwm_trace pin0 alt0 c2).2).map Prod.snd =
      [compare_value c2] ∧
    compare_value c1 ≤ compare_value c2 := by
  obtain ⟨h1, -, -, -, -, -⟩ := accepted_arith c1 hr1 ((check_none_iff c1 hr1).1 hv1)
  have hrl : reload_value c1 = reload_value c2 := by
    unfold reload_value
    rw [hf, hcf]
  refine ⟨ccr_write_value pin0 alt0 c1 hr1 hv1, ?_, ?_⟩
  · rw [hch, hi]
    exact ccr_write_value pin0 alt0 c2 hr2 hv2
  · unfold compare_value
    rw [Int.fdiv_eq_ediv _ (by norm_num), Int.fdiv_eq_ediv _ (by norm_num), ← hrl]
    exact Int.ediv_le_ediv (by norm_num) (Int.mul_le_mul_of_nonneg_left hd h1.1)

theorem C19_duty_monotone_witness :
    sample_config_16.in_range ∧ sample_config_16_high.in_range ∧
    check_pwm_config_validity sample_config_16 = ti_errc_t.TI_ERRC_NONE ∧
    check_pwm_config_validity sample_config_16_high = ti_errc_t.TI_ERRC_NONE ∧
    sample_config_16.channel = sample_config_16_high.channel ∧
    sample_config_16.inst = sample_config_16_high.inst ∧
    sample_config_16.freq = sample_config_16_high.freq ∧
    sample_config_16.clock_freq = sample_config_16_high.clock_freq ∧
    sample_config_16.duty ≤ sample_config_16_high.duty ∧
    ((writes_to (ccr_reg sample_config_16.inst sample_config_16.channel)
        (ti_set_pwm_trace 0 0 sample_config_16).2).map Prod.snd =
      [compare_value sample_config_16] ∧
    (writes_to (ccr_reg sample_config_16.inst sample_config_16.channel)
        (ti_set_pwm_trace 0 0 sample_config_16_high).2).map Prod.snd =
      [compare_value sample_config_16_high] ∧
    compare_value sample_config_16 ≤ compare_value sample_config_16_high) :=
  ⟨by decide, by decide, by decide, by decide, by decide, by decide, by decide, by decide,
    by decide,
    C19_duty_monotone 0 0 sample_config_16 sample_config_16_high
      (by decide) (by decide) (by decide) (by decide) (by decide) (by decide) (by decide)
      (by decide) (by decide)⟩

/-- C20: for every accepted record, duty 0 makes the written compare value 0
and duty 1000 makes it equal to the written reload value
`clock_freq / freq - 1`; the compare value is never greater than the reload
value; when `clock_freq / freq = 1` the reload value and the compare value are
both 0, whatever the duty. -/
theorem C20_duty_endpoints (pin0 alt0 : Int) (c : ti_pwm_config_t) (hr : c.in_range)
    (hv : check_pwm_config_validity c = ti_errc_t.TI_ERRC_NONE) :
    (writes_to (reg_id.G_TIMx_ARR c.inst) (ti_set_pwm_trace pin0 alt0 c).2).map Prod.snd =
      [Int.tdiv c.clock_freq c.freq - 1] ∧
    (writes_to (ccr_reg c.inst c.channel) (ti_set_pwm_trace pin0 alt0 c).2).map Prod.snd =
      [compare_value c] ∧
    (c.duty = 0 → compare_value c = 0) ∧
    (c.duty = 1000 → compare_value c = Int.tdiv c.clock_freq c.freq - 1) ∧
    compare_value c ≤ Int.tdiv c.clock_freq c.freq - 1 ∧
    (Int.tdiv c.clock_freq c.freq = 1 →
      Int.tdiv c.clock_freq c.freq - 1 = 0 ∧ compare_value c = 0) := by
  obtain ⟨h1, -, h3, -, -, -⟩ := accepted_arith c hr ((check_none_iff c hr).1 hv)
  have hcv : compare_value c = (reload_value c * c.duty) / 1000 := by
    unfold compare_value
    exact Int.fdiv_eq_ediv _ (by norm_num)
  refine ⟨arr_write_value pin0 alt0 c hr hv, ccr_write_value pin0 alt0 c hr hv, ?_, ?_, h3.2, ?_⟩
  · intro h0
    rw [hcv, h0]
    simp
  · intro h1000
    rw [hcv, h1000]
    exact Int.mul_ediv_cancel _ (by norm_num)
  · intro hq
    have hz : reload_value c = 0 := by
      unfold reload_value
      omega
    refine ⟨by omega, ?_⟩
    rw [hcv, hz]
    simp

theorem C20_duty_endpoints_witness :
    sample_config_full.in_range ∧
    check_pwm_config_validity sample_config_full = ti_errc_t.TI_ERRC_NONE ∧
    sample_config_full.duty = 1000 ∧
    ((writes_to (reg_id.G_TIMx_ARR sample_config_full.inst)
        (ti_set_pwm_trace 0 0 sample_config_full).2).map Prod.snd =
      [Int.tdiv sample_config_full.clock_freq sample_config_full.freq - 1] ∧
    (writes_to (ccr_reg sample_config_full.inst sample_config_full.channel)
        (ti_set_pwm_trace 0 0 sample_config_full).2).map Prod.snd =
      [compare_value sample_config_full] ∧
    (sample_config_full.duty = 0 → compare_value sample_config_full = 0) ∧
    (sample_config_full.duty = 1000 →
      compare_value sample_config_full =
        Int.tdiv sample_config_full.clock_freq sample_config_full.freq - 1) ∧
    compare_value sample_config_full ≤
      Int.tdiv sample_config_full.clock_freq sample_config_full.freq - 1 ∧
    (Int.tdiv sample_config_full.clock_freq sample_config_full.freq = 1 →
      Int.tdiv sample_config_full.clock_freq sample_config_full.freq - 1 = 0 ∧
      compare_value sample_config_full = 0)) :=
  ⟨by decide, by decide, by decide,
    C20_duty_endpoints 0 0 sample_config_full (by decide) (by decide)⟩

end Titan
